import Mathlib

/-! RudpSocket: a shallow embedding of `maidsafe-dht/transport/rudp_socket.cc`

The socket is the connection facade of the reliable-UDP transport.  Its
collaborators (session, sender, dispatcher, packet codec, peer) live in files
that are not part of the sources at hand, so the socket's member functions are
embedded over an interface `Collaborators` that lists exactly the calls the
socket makes on them.  A concrete instance of that interface, written from the
design document, is given further down (`specEnv`) for the statements that
depend on what the collaborators do.

Conventions of the embedding:

* `size_t` quantities are `Nat`.  Every sum the socket forms is a sum of sizes
  of objects that are simultaneously in memory, so no wrap-around is modelled.
* a deadline timer armed at `pos_infin` whose `cancel()` fires the completion
  handler is a counter of the `cancel()` calls made on it.
* `asio::const_buffer` is the list of bytes it designates;
  `asio::mutable_buffer` is a cursor into the caller's memory block.
-/

namespace maidsafe.transport

/-! ## Plain data -/

/-- One octet of payload.  The socket never inspects payload bytes. -/
abbrev Byte := Nat

/-- The type `ip::udp::endpoint`. -/
structure Endpoint where
  address : Nat
  port : Nat
deriving DecidableEq, Repr

/-- The default-constructed endpoint `ip::udp::endpoint()`. -/
def Endpoint.unbound : Endpoint := ⟨0, 0⟩

/-- The two values of `bs::error_code` the socket stores: the cleared code and
`asio::error::operation_aborted`. -/
inductive ErrorCode
  | success
  | operation_aborted
deriving DecidableEq, Repr

/-- The enumeration `RudpSession::Mode`. -/
inductive Mode
  | kClient
  | kServer
deriving DecidableEq, Repr

/-- An `asio::mutable_buffer`: a pointer into a block of caller memory together
with a size.  `mem` is the caller's block, `pos` the offset the pointer has
inside it, `size` the value of `asio::buffer_size`. -/
structure MutableBuffer where
  mem : List Byte
  pos : Nat
  size : Nat
deriving DecidableEq, Repr

/-- The default-constructed `asio::mutable_buffer()`. -/
def MutableBuffer.null : MutableBuffer := ⟨[], 0, 0⟩

/-- A buffer covering the whole of a block, as `asio::buffer(block)` gives. -/
def MutableBuffer.ofBlock (block : List Byte) : MutableBuffer := ⟨block, 0, block.length⟩

/-- The function `asio::buffer_size` on a mutable buffer. -/
def buffer_size (b : MutableBuffer) : Nat := b.size

/-- The operator `b + n` of asio: the pointer moves forward by `n`, clamped to
the size, and the size shrinks by as much. -/
def MutableBuffer.advance (b : MutableBuffer) (n : Nat) : MutableBuffer :=
  { b with pos := b.pos + min n b.size, size := b.size - min n b.size }

/-- The effect of `std::copy(first, last, data)` with `data` the buffer's
pointer: the bytes overwrite the block from offset `pos` on. -/
def MutableBuffer.store (b : MutableBuffer) (bytes : List Byte) : MutableBuffer :=
  { b with mem := b.mem.take b.pos ++ bytes ++ b.mem.drop (b.pos + bytes.length) }

/-- The `n` bytes of the block that end at the cursor: what has been copied
into a region whose cursor advanced by `n`. -/
def MutableBuffer.filled (b : MutableBuffer) (n : Nat) : List Byte :=
  (b.mem.drop (b.pos - n)).take n

/-- Modelled from the spec: the peer `{ endpoint, id }`, a plain value holder
for the remote endpoint and the remote connection id (`rudp_peer` is not among
the sources). -/
structure RudpPeer where
  endpoint : Endpoint
  id : Nat
deriving DecidableEq, Repr

/-! ## The collaborators' interface -/

/-- What the socket calls on the classes it is built from.  Each field is one
member function (or constant) declared outside `rudp_socket.cc`; a function
that mutates its object returns the new object. -/
structure Collaborators where
  /-- The class `RudpDataPacket`. -/
  DataPacket : Type
  /-- The class `RudpAckPacket`. -/
  AckPacket : Type
  /-- The class `RudpHandshakePacket`. -/
  HandshakePacket : Type
  /-- The class `RudpSession`. -/
  Session : Type
  /-- The class `RudpSender`. -/
  Sender : Type
  /-- The class `RudpDispatcher`. -/
  Dispatcher : Type
  /-- The constant `kMaxReadBufferSize`. -/
  kMaxReadBufferSize : Nat
  /-- The call `RudpDataPacket::Decode`, `none` when it returns false. -/
  decodeData : List Byte → Option DataPacket
  /-- The call `RudpAckPacket::Decode`. -/
  decodeAck : List Byte → Option AckPacket
  /-- The call `RudpHandshakePacket::Decode`. -/
  decodeHandshake : List Byte → Option HandshakePacket
  /-- The accessor `RudpDataPacket::Data`. -/
  packetData : DataPacket → List Byte
  /-- The session a socket is constructed with. -/
  newSession : Session
  /-- The accessor `RudpSession::Id`. -/
  sessionId : Session → Nat
  /-- The accessor `RudpSession::IsOpen`. -/
  sessionIsOpen : Session → Bool
  /-- The accessor `RudpSession::IsConnected`. -/
  sessionIsConnected : Session → Bool
  /-- The call `RudpSession::Open(id, sequence_number, mode)`. -/
  sessionOpen : Session → Nat → Nat → Mode → Session
  /-- The call `RudpSession::HandleHandshake`; the session holds a reference to
  the peer and may update it. -/
  sessionHandleHandshake : Session → RudpPeer → HandshakePacket → Session × RudpPeer
  /-- The call `RudpSession::Close`. -/
  sessionClose : Session → Session
  /-- The sender a socket is constructed with. -/
  newSender : Sender
  /-- The call `RudpSender::GetNextPacketSequenceNumber`. -/
  senderGetNextPacketSequenceNumber : Sender → Nat × Sender
  /-- The call `RudpSender::GetFreeSpace`. -/
  senderGetFreeSpace : Sender → Nat
  /-- The call `RudpSender::AddData`: the count it returns and the new sender. -/
  senderAddData : Sender → List Byte → Nat × Sender
  /-- The call `RudpSender::HandleAck`. -/
  senderHandleAck : Sender → AckPacket → Sender
  /-- The call `RudpDispatcher::AddSocket(socket)`: the id it returns and the
  new dispatcher. -/
  dispatcherAddSocket : Dispatcher → Nat → Nat × Dispatcher
  /-- The call `RudpDispatcher::RemoveSocket(id)`. -/
  dispatcherRemoveSocket : Dispatcher → Nat → Dispatcher

/-! ## The socket -/

/-- The data members of `RudpSocket`.  `self` is the address `this`;
`dispatcher_` is the referenced dispatcher, threaded through the state. -/
structure RudpSocket (E : Collaborators) where
  self : Nat
  dispatcher_ : E.Dispatcher
  peer_ : RudpPeer
  session_ : E.Session
  sender_ : E.Sender
  waiting_connect_ : Nat
  waiting_connect_ec_ : ErrorCode
  waiting_write_ : Nat
  waiting_write_buffer_ : List Byte
  waiting_write_ec_ : ErrorCode
  waiting_write_bytes_transferred_ : Nat
  waiting_read_ : Nat
  waiting_read_buffer_ : MutableBuffer
  waiting_read_transfer_at_least_ : Nat
  waiting_read_ec_ : ErrorCode
  waiting_read_bytes_transferred_ : Nat
  read_buffer_ : List Byte

variable {E : Collaborators}

/-- The constructor `RudpSocket::RudpSocket(multiplexer)`: every timer is armed
and unfired, every error code is clear, every counter is zero, both buffers and
the inbound queue are empty. -/
def RudpSocket.create (E : Collaborators) (self : Nat) (dispatcher : E.Dispatcher) :
    RudpSocket E :=
  { self := self
    dispatcher_ := dispatcher
    peer_ := ⟨Endpoint.unbound, 0⟩
    session_ := E.newSession
    sender_ := E.newSender
    waiting_connect_ := 0
    waiting_connect_ec_ := ErrorCode.success
    waiting_write_ := 0
    waiting_write_buffer_ := []
    waiting_write_ec_ := ErrorCode.success
    waiting_write_bytes_transferred_ := 0
    waiting_read_ := 0
    waiting_read_buffer_ := MutableBuffer.null
    waiting_read_transfer_at_least_ := 0
    waiting_read_ec_ := ErrorCode.success
    waiting_read_bytes_transferred_ := 0
    read_buffer_ := [] }

/-- The accessor `RudpSocket::Id`. -/
def Id (s : RudpSocket E) : Nat := E.sessionId s.session_

/-- The accessor `RudpSocket::RemoteEndpoint`. -/
def RemoteEndpoint (s : RudpSocket E) : Endpoint := s.peer_.endpoint

/-- The accessor `RudpSocket::RemoteId`. -/
def RemoteId (s : RudpSocket E) : Nat := s.peer_.id

/-- The accessor `RudpSocket::IsOpen`. -/
def IsOpen (s : RudpSocket E) : Bool := E.sessionIsOpen s.session_

/-- The function `RudpSocket::Close`. -/
def Close (s : RudpSocket E) : RudpSocket E :=
  let dispatcher :=
    if E.sessionIsOpen s.session_ then
      E.dispatcherRemoveSocket s.dispatcher_ (E.sessionId s.session_)
    else s.dispatcher_
  { s with
    dispatcher_ := dispatcher
    session_ := E.sessionClose s.session_
    peer_ := ⟨Endpoint.unbound, 0⟩
    waiting_connect_ec_ := ErrorCode.operation_aborted
    waiting_connect_ := s.waiting_connect_ + 1
    waiting_write_ec_ := ErrorCode.operation_aborted
    waiting_write_bytes_transferred_ := 0
    waiting_write_ := s.waiting_write_ + 1
    waiting_read_ec_ := ErrorCode.operation_aborted
    waiting_read_bytes_transferred_ := 0
    waiting_read_ := s.waiting_read_ + 1 }

/-- The destructor `RudpSocket::~RudpSocket`, as its effect on the dispatcher. -/
def Destroy (s : RudpSocket E) : E.Dispatcher :=
  if E.sessionIsOpen s.session_ then
    E.dispatcherRemoveSocket s.dispatcher_ (E.sessionId s.session_)
  else s.dispatcher_

/-- The function `RudpSocket::StartConnect(remote)`. -/
def StartConnect (s : RudpSocket E) (remote : Endpoint) : RudpSocket E :=
  let added := E.dispatcherAddSocket s.dispatcher_ s.self
  let seq := E.senderGetNextPacketSequenceNumber s.sender_
  { s with
    peer_ := ⟨remote, 0⟩
    dispatcher_ := added.2
    sender_ := seq.2
    session_ := E.sessionOpen s.session_ added.1 seq.1 Mode.kClient }

/-- The function `RudpSocket::StartConnect()`; `none` when one of its two
assertions fails. -/
def StartConnectServer (s : RudpSocket E) : Option (RudpSocket E) :=
  if s.peer_.endpoint ≠ Endpoint.unbound ∧ s.peer_.id ≠ 0 then
    let added := E.dispatcherAddSocket s.dispatcher_ s.self
    let seq := E.senderGetNextPacketSequenceNumber s.sender_
    some { s with
      dispatcher_ := added.2
      sender_ := seq.2
      session_ := E.sessionOpen s.session_ added.1 seq.1 Mode.kServer }
  else none

/-- The function `RudpSocket::ProcessWrite`. -/
def ProcessWrite (s : RudpSocket E) : RudpSocket E :=
  if s.waiting_write_buffer_.length = 0 then s
  else if E.senderGetFreeSpace s.sender_ = 0 then s
  else
    let added := E.senderAddData s.sender_ s.waiting_write_buffer_
    let length := added.1
    let s1 : RudpSocket E :=
      { s with
        sender_ := added.2
        waiting_write_buffer_ := s.waiting_write_buffer_.drop length
        waiting_write_bytes_transferred_ := s.waiting_write_bytes_transferred_ + length }
    if s1.waiting_write_buffer_.length = 0 then
      { s1 with
        waiting_write_ec_ := ErrorCode.success
        waiting_write_ := s1.waiting_write_ + 1 }
    else s1

/-- The function `RudpSocket::StartWrite`. -/
def StartWrite (s : RudpSocket E) (data : List Byte) : RudpSocket E :=
  if data.length = 0 then
    { s with
      waiting_write_ec_ := ErrorCode.success
      waiting_write_ := s.waiting_write_ + 1 }
  else
    ProcessWrite
      { s with
        waiting_write_buffer_ := data
        waiting_write_bytes_transferred_ := 0 }

/-- The function `RudpSocket::ProcessRead`. -/
def ProcessRead (s : RudpSocket E) : RudpSocket E :=
  if buffer_size s.waiting_read_buffer_ = 0 then s
  else if s.read_buffer_.isEmpty then s
  else
    let length := min s.read_buffer_.length (buffer_size s.waiting_read_buffer_)
    let s1 : RudpSocket E :=
      { s with
        waiting_read_buffer_ :=
          (s.waiting_read_buffer_.store (s.read_buffer_.take length)).advance length
        read_buffer_ := s.read_buffer_.drop length
        waiting_read_bytes_transferred_ := s.waiting_read_bytes_transferred_ + length }
    if buffer_size s1.waiting_read_buffer_ = 0 ∨
        s1.waiting_read_bytes_transferred_ ≥ s1.waiting_read_transfer_at_least_ then
      { s1 with
        waiting_read_ec_ := ErrorCode.success
        waiting_read_ := s1.waiting_read_ + 1 }
    else s1

/-- The function `RudpSocket::StartRead`. -/
def StartRead (s : RudpSocket E) (data : MutableBuffer) (transfer_at_least : Nat) :
    RudpSocket E :=
  if buffer_size data = 0 then
    { s with
      waiting_read_ec_ := ErrorCode.success
      waiting_read_ := s.waiting_read_ + 1 }
  else
    ProcessRead
      { s with
        waiting_read_buffer_ := data
        waiting_read_transfer_at_least_ := transfer_at_least
        waiting_read_bytes_transferred_ := 0 }

/-- The function `RudpSocket::HandleHandshake`. -/
def HandleHandshake (s : RudpSocket E) (packet : E.HandshakePacket) : RudpSocket E :=
  let handled := E.sessionHandleHandshake s.session_ s.peer_ packet
  let s1 : RudpSocket E := { s with session_ := handled.1, peer_ := handled.2 }
  if E.sessionIsConnected s1.session_ then
    { s1 with
      waiting_connect_ec_ := ErrorCode.success
      waiting_connect_ := s1.waiting_connect_ + 1 }
  else s1

/-- The function `RudpSocket::HandleData`. -/
def HandleData (s : RudpSocket E) (packet : E.DataPacket) : RudpSocket E :=
  if E.sessionIsConnected s.session_ then
    if s.read_buffer_.length + (E.packetData packet).length < E.kMaxReadBufferSize then
      ProcessRead { s with read_buffer_ := s.read_buffer_ ++ E.packetData packet }
    else s
  else s

/-- The function `RudpSocket::HandleAck`. -/
def HandleAck (s : RudpSocket E) (packet : E.AckPacket) : RudpSocket E :=
  if E.sessionIsConnected s.session_ then
    { s with sender_ := E.senderHandleAck s.sender_ packet }
  else s

/-- The function `RudpSocket::HandleReceiveFrom`.  The endpoint is only
written to the log. -/
def HandleReceiveFrom (s : RudpSocket E) (data : List Byte) (_endpoint : Endpoint) :
    RudpSocket E :=
  match E.decodeData data with
  | some data_packet => HandleData s data_packet
  | none =>
    match E.decodeAck data with
    | some ack_packet => HandleAck s ack_packet
    | none =>
      match E.decodeHandshake data with
      | some handshake_packet => HandleHandshake s handshake_packet
      | none => s

/-! ## Sequences of operations -/

/-- The calls a user of the socket (the application or the multiplexer) can
make on it. -/
inductive SocketOp
  | start_connect (remote : Endpoint)
  | start_connect_server
  | start_write (data : List Byte)
  | start_read (data : MutableBuffer) (transfer_at_least : Nat)
  | handle_receive (data : List Byte) (endpoint : Endpoint)
  | close
deriving DecidableEq, Repr

/-- One call on the socket; `none` when an assertion of the callee fails. -/
def step (s : RudpSocket E) : SocketOp → Option (RudpSocket E)
  | SocketOp.start_connect remote => some (StartConnect s remote)
  | SocketOp.start_connect_server => StartConnectServer s
  | SocketOp.start_write data => some (StartWrite s data)
  | SocketOp.start_read data transfer_at_least => some (StartRead s data transfer_at_least)
  | SocketOp.handle_receive data endpoint => some (HandleReceiveFrom s data endpoint)
  | SocketOp.close => some (Close s)

/-- A sequence of calls, made one after the other. -/
def run (s : RudpSocket E) : List SocketOp → Option (RudpSocket E)
  | [] => some s
  | op :: ops => (step s op).bind fun s1 => run s1 ops

/-- Whether the call starts a read or closes the socket; these two calls
terminate the read that is pending. -/
def SocketOp.endsRead : SocketOp → Bool
  | SocketOp.start_read _ _ => true
  | SocketOp.close => true
  | _ => false

/-! ## The collaborators of the design document

The classes behind `Collaborators` are described by the design document only.
The instance below follows its words; it is used where a statement depends on
what the session, the sender or the dispatcher do, and to run the socket on
concrete inputs. -/

/-- Modelled from the spec: the three states of the session state machine
(`rudp_session` is not among the sources). -/
inductive SessionState
  | Closed
  | Opening
  | Connected
deriving DecidableEq, Repr

/-- Modelled from the spec: the session record
`{ local_id, role, initial_seq, state }` (`rudp_session` is not among the
sources). -/
structure SpecSession where
  local_id : Nat
  role : Mode
  initial_seq : Nat
  state : SessionState
deriving DecidableEq, Repr

/-- Modelled from the spec: the sender (`rudp_sender` is not among the
sources).  `window` holds the bytes absorbed and not yet acknowledged, whether
still buffered or already in flight: both count against `SEND_CAP` alike. -/
structure SpecSender where
  SEND_CAP : Nat
  next_seq : Nat
  window : List Byte
deriving DecidableEq, Repr

/-- Modelled from the spec: the dispatcher's routing table, a list of
`(connection id, socket)` pairs (`rudp_dispatcher` is not among the sources). -/
abbrev SpecDispatcher := List (Nat × Nat)

/-- What the design document leaves to the codec and to configuration: the two
caps, the sequence seed, the three decoders and the validation of a handshake
against the session's role.  A decoded data packet is its payload, a decoded
ack the number of bytes it acknowledges, a decoded handshake the connection id
it carries. -/
structure SpecParams where
  READ_CAP : Nat
  SEND_CAP : Nat
  seed : Nat
  decodeData : List Byte → Option (List Byte)
  decodeAck : List Byte → Option Nat
  decodeHandshake : List Byte → Option Nat
  validHandshake : Mode → RudpPeer → Nat → Bool

/-- Modelled from the spec: `open(local_id, initial_seq, role)` stores the
triple and transitions to Opening. -/
def SpecSession.open (_s : SpecSession) (local_id initial_seq : Nat) (role : Mode) :
    SpecSession :=
  { local_id := local_id, role := role, initial_seq := initial_seq,
    state := SessionState.Opening }

/-- Modelled from the spec: `handle_handshake(packet)` validates the packet
against the current role; on success it sets `peer.id` if previously zero and
transitions Opening to Connected; an invalid handshake changes nothing. -/
def SpecSession.handle_handshake (valid : Mode → RudpPeer → Nat → Bool)
    (s : SpecSession) (peer : RudpPeer) (packet : Nat) : SpecSession × RudpPeer :=
  if s.state = SessionState.Opening ∧ valid s.role peer packet = true then
    ({ s with state := SessionState.Connected },
     { peer with id := if peer.id = 0 then packet else peer.id })
  else (s, peer)

/-- Modelled from the spec: `close()` is the terminal transition to Closed. -/
def SpecSession.close (s : SpecSession) : SpecSession :=
  { s with state := SessionState.Closed }

/-- Modelled from the spec: `is_open()`, true in Opening and in Connected. -/
def SpecSession.is_open (s : SpecSession) : Bool :=
  decide (s.state ≠ SessionState.Closed)

/-- Modelled from the spec: `is_connected()`. -/
def SpecSession.is_connected (s : SpecSession) : Bool :=
  decide (s.state = SessionState.Connected)

/-- Modelled from the spec: `free_space()` is `SEND_CAP` minus the bytes
buffered and the bytes in flight. -/
def SpecSender.free_space (s : SpecSender) : Nat :=
  s.SEND_CAP - s.window.length

/-- Modelled from the spec: `add_data(bytes)` copies up to `free_space()`
bytes from the caller's region and returns the count absorbed. -/
def SpecSender.add_data (s : SpecSender) (bytes : List Byte) : Nat × SpecSender :=
  let count := min bytes.length s.free_space
  (count, { s with window := s.window ++ bytes.take count })

/-- Modelled from the spec: `handle_ack(packet)` advances the unacked cursor
and frees space in the window; an ack for more than is in the window is out of
range and ignored. -/
def SpecSender.handle_ack (s : SpecSender) (acked : Nat) : SpecSender :=
  if acked ≤ s.window.length then { s with window := s.window.drop acked } else s

/-- Modelled from the spec: `next_sequence_number()` returns and advances the
monotonic sequence counter. -/
def SpecSender.next_sequence_number (s : SpecSender) : Nat × SpecSender :=
  (s.next_seq, { s with next_seq := s.next_seq + 1 })

/-- Modelled from the spec: a fresh nonzero id for `add_socket`, one more than
the largest id in the table. -/
def SpecDispatcher.freshId (d : SpecDispatcher) : Nat :=
  (d.map Prod.fst).foldr max 0 + 1

/-- Modelled from the spec: `add_socket(socket)` allocates a fresh nonzero id
and records the mapping. -/
def SpecDispatcher.add_socket (d : SpecDispatcher) (socket : Nat) : Nat × SpecDispatcher :=
  (SpecDispatcher.freshId d, (SpecDispatcher.freshId d, socket) :: d)

/-- Modelled from the spec: `remove_socket(id)` removes the mapping; removing
an unknown id is a no-op. -/
def SpecDispatcher.remove_socket (d : SpecDispatcher) (id : Nat) : SpecDispatcher :=
  d.filter fun entry => decide (entry.1 ≠ id)

/-- Modelled from the spec: the routing lookup of `dispatch`. -/
def SpecDispatcher.lookup (d : SpecDispatcher) (id : Nat) : Option Nat :=
  List.lookup id d

/-- The number of mappings of the table that lead to the socket. -/
def SpecDispatcher.registrations (d : SpecDispatcher) (socket : Nat) : Nat :=
  (d.filter fun entry => decide (entry.2 = socket)).length

/-- The collaborators of the design document, as an instance of the interface
the socket is written against. -/
@[reducible]
def specEnv (P : SpecParams) : Collaborators :=
  { DataPacket := List Byte
    AckPacket := Nat
    HandshakePacket := Nat
    Session := SpecSession
    Sender := SpecSender
    Dispatcher := SpecDispatcher
    kMaxReadBufferSize := P.READ_CAP
    decodeData := P.decodeData
    decodeAck := P.decodeAck
    decodeHandshake := P.decodeHandshake
    packetData := fun payload => payload
    newSession := ⟨0, Mode.kClient, 0, SessionState.Closed⟩
    sessionId := fun s => s.local_id
    sessionIsOpen := SpecSession.is_open
    sessionIsConnected := SpecSession.is_connected
    sessionOpen := SpecSession.open
    sessionHandleHandshake := SpecSession.handle_handshake P.validHandshake
    sessionClose := SpecSession.close
    newSender := ⟨P.SEND_CAP, P.seed, []⟩
    senderGetNextPacketSequenceNumber := SpecSender.next_sequence_number
    senderGetFreeSpace := SpecSender.free_space
    senderAddData := SpecSender.add_data
    senderHandleAck := SpecSender.handle_ack
    dispatcherAddSocket := SpecDispatcher.add_socket
    dispatcherRemoveSocket := SpecDispatcher.remove_socket }

/-- A sample wire layout for running the model: the first byte of a datagram
is its kind (0 data, 1 ack, 2 handshake); a data packet's payload is the rest,
an ack or a handshake carries one number.  Anything else does not decode. -/
def sampleDecodeData : List Byte → Option (List Byte)
  | 0 :: payload => some payload
  | _ => none

/-- The ack decoder of the sample wire layout. -/
def sampleDecodeAck : List Byte → Option Nat
  | [1, acked] => some acked
  | _ => none

/-- The handshake decoder of the sample wire layout. -/
def sampleDecodeHandshake : List Byte → Option Nat
  | [2, id] => some id
  | _ => none

/-- A sample configuration: the given caps, seed 100, the sample wire layout,
and a handshake accepted when it carries a nonzero id. -/
def sampleParams (READ_CAP SEND_CAP : Nat) : SpecParams :=
  { READ_CAP := READ_CAP
    SEND_CAP := SEND_CAP
    seed := 100
    decodeData := sampleDecodeData
    decodeAck := sampleDecodeAck
    decodeHandshake := sampleDecodeHandshake
    validHandshake := fun _ _ id => decide (id ≠ 0) }

/-- The sample collaborators with a 64 KiB inbound cap and `SEND_CAP = 8`. -/
abbrev sampleEnv : Collaborators := specEnv (sampleParams 65536 8)

/-- A freshly constructed socket at address 1 on an empty dispatcher. -/
def sampleSocket : RudpSocket sampleEnv := RudpSocket.create sampleEnv 1 []

/-- The sample socket after `start_connect` and the peer's handshake: its
session is Connected under connection id 1. -/
def connectedSocket : RudpSocket sampleEnv :=
  HandleReceiveFrom (StartConnect sampleSocket ⟨10, 5000⟩) [2, 7] ⟨10, 5000⟩

/-- A block of ten zero bytes, the caller's memory for a read of up to ten
bytes. -/
def tenZeros : List Byte := [0, 0, 0, 0, 0, 0, 0, 0, 0, 0]

/-- The connected sample socket after `start_read(region[10], min = 1)` on an
empty inbound buffer. -/
def readStarted : RudpSocket sampleEnv :=
  StartRead connectedSocket (MutableBuffer.ofBlock tenZeros) 1

/-- The state after a data packet with payload `abc` has then arrived. -/
def firstArrival : RudpSocket sampleEnv :=
  HandleReceiveFrom readStarted [0, 97, 98, 99] ⟨10, 5000⟩

/-- The state after a second data packet, with payload `def`, has arrived
before the caller started its next read. -/
def secondArrival : RudpSocket sampleEnv :=
  HandleReceiveFrom firstArrival [0, 100, 101, 102] ⟨10, 5000⟩

/-- The state after the caller's next `start_read(region[10], min = 1)`. -/
def nextRead : RudpSocket sampleEnv :=
  StartRead secondArrival (MutableBuffer.ofBlock tenZeros) 1

/-- Sixteen bytes to write. -/
def sixteenBytes : List Byte := [1, 2, 3, 4, 5, 6, 7, 8, 9, 10, 11, 12, 13, 14, 15, 16]

/-- The connected sample socket (`SEND_CAP = 8`, empty sender) after
`start_write` of sixteen bytes. -/
def writeStarted : RudpSocket sampleEnv := StartWrite connectedSocket sixteenBytes

/-- Datagrams handed to `handle_receive` one after the other. -/
def receiveAll (s : RudpSocket E) (datagrams : List (List Byte × Endpoint)) : RudpSocket E :=
  datagrams.foldl (fun s1 datagram => HandleReceiveFrom s1 datagram.1 datagram.2) s

/-- A socket with an inbound cap of 4: connected, then a read of up to ten
bytes pending on the empty inbound buffer. -/
def smallCapSocket : RudpSocket (specEnv (sampleParams 4 8)) :=
  StartRead
    (HandleReceiveFrom
      (StartConnect (RudpSocket.create (specEnv (sampleParams 4 8)) 1 []) ⟨10, 5000⟩)
      [2, 7] ⟨10, 5000⟩)
    (MutableBuffer.ofBlock tenZeros) 4

/-- The members of the read slot: the completion timer, the region cursor, the
minimum to transfer, the error code and the byte counter. -/
def readSlot (s : RudpSocket E) : Nat × MutableBuffer × Nat × ErrorCode × Nat :=
  (s.waiting_read_, s.waiting_read_buffer_, s.waiting_read_transfer_at_least_,
   s.waiting_read_ec_, s.waiting_read_bytes_transferred_)

/-- The state of a read over a region of `R` bytes whose minimum exceeds `R`,
started when the read timer had fired `f0` times: the counter and the rest of
the region add up to `R`, and the timer has fired once more exactly if the
region is used up, in which case the error code is clear. -/
def FillPending (R f0 : Nat) (s : RudpSocket E) : Prop :=
  R < s.waiting_read_transfer_at_least_ ∧
  s.waiting_read_bytes_transferred_ + buffer_size s.waiting_read_buffer_ = R ∧
  s.waiting_read_ = f0 + (if buffer_size s.waiting_read_buffer_ = 0 then 1 else 0) ∧
  (buffer_size s.waiting_read_buffer_ = 0 → s.waiting_read_ec_ = ErrorCode.success)

/-- The state of a read over a region of `R` bytes with minimum zero, started
when the read timer had fired `f0` times: while nothing is transferred the
timer has not fired again and the inbound buffer is empty; once something is
transferred the timer has fired and the error code is clear. -/
def AnyBytePending (R f0 : Nat) (s : RudpSocket E) : Prop :=
  s.waiting_read_transfer_at_least_ = 0 ∧
  s.waiting_read_bytes_transferred_ + buffer_size s.waiting_read_buffer_ = R ∧
  (s.waiting_read_bytes_transferred_ = 0 → s.waiting_read_ = f0) ∧
  (1 ≤ s.waiting_read_bytes_transferred_ →
    f0 < s.waiting_read_ ∧ s.waiting_read_ec_ = ErrorCode.success) ∧
  (buffer_size s.waiting_read_buffer_ = 0 ∨ s.read_buffer_ = [])

/-- Two data packets, of two bytes each. -/
def twoPackets : List SocketOp :=
  [SocketOp.handle_receive [0, 97, 98] ⟨10, 5000⟩,
   SocketOp.handle_receive [0, 99, 100] ⟨10, 5000⟩]

/-- Whether the call is one of the two forms of `start_connect`. -/
def SocketOp.isConnect : SocketOp → Bool
  | SocketOp.start_connect _ => true
  | SocketOp.start_connect_server => true
  | _ => false

/-- Whether every `start_connect` of the sequence is issued while the socket
is not open. -/
def connectsWhenClosed (s : RudpSocket E) : List SocketOp → Bool
  | [] => true
  | op :: ops =>
    !(op.isConnect && IsOpen s) &&
      match step s op with
      | some s1 => connectsWhenClosed s1 ops
      | none => true

/-- The dispatcher invariant for one socket over the collaborators of the
design document: a socket whose session is Closed has no mapping, neither to
it nor under its last id; a socket whose session is not Closed has exactly one
mapping, the one under its session's id. -/
def RegisteredOnce {P : SpecParams} (s : RudpSocket (specEnv P)) : Prop :=
  if s.session_.state = SessionState.Closed then
    (List.filter (fun entry : Nat × Nat => decide (entry.2 = s.self)) s.dispatcher_ = [] ∧
      SpecDispatcher.lookup s.dispatcher_ s.session_.local_id = none)
  else
    (List.filter (fun entry : Nat × Nat => decide (entry.2 = s.self)) s.dispatcher_ =
        [(s.session_.local_id, s.self)] ∧
      SpecDispatcher.lookup s.dispatcher_ s.session_.local_id = some s.self)

/-- Connect, complete the handshake, then connect again on the connected
socket. -/
def reconnectRun : List SocketOp :=
  [SocketOp.start_connect ⟨10, 5000⟩,
   SocketOp.handle_receive [2, 7] ⟨10, 5000⟩,
   SocketOp.start_connect ⟨10, 5000⟩]

/-- Connect, complete the handshake, close, connect anew, handshake. -/
def closeThenConnectRun : List SocketOp :=
  [SocketOp.start_connect ⟨10, 5000⟩,
   SocketOp.handle_receive [2, 7] ⟨10, 5000⟩,
   SocketOp.close,
   SocketOp.start_connect ⟨11, 5000⟩,
   SocketOp.handle_receive [2, 9] ⟨11, 5000⟩]

/-- A run that tries to overfill the inbound buffer: connect, handshake, a
data packet of three bytes, a data packet of one more byte, a read of one byte,
a close. -/
def overfillRun : List SocketOp :=
  [SocketOp.start_connect ⟨10, 5000⟩,
   SocketOp.handle_receive [2, 7] ⟨10, 5000⟩,
   SocketOp.handle_receive [0, 97, 98, 99] ⟨10, 5000⟩,
   SocketOp.handle_receive [0, 100] ⟨10, 5000⟩,
   SocketOp.start_read (MutableBuffer.ofBlock [0]) 1,
   SocketOp.close]

/-- A datagram that none of the three sample decoders accepts. -/
def strayDatagram : List Byte := [9, 9, 9]

/-- The number of bytes one copy moves: `min(inbound.size(), region.remaining())`. -/
def readCount (s : RudpSocket E) : Nat :=
  min s.read_buffer_.length (buffer_size s.waiting_read_buffer_)

/-- The body of the `process_read` loop as the design document words it: copy
`min(inbound.size(), region.remaining())` bytes out, advance the cursor and
`bytes_transferred`. -/
def process_read_copy (s : RudpSocket E) : RudpSocket E :=
  { s with
    waiting_read_buffer_ :=
      (s.waiting_read_buffer_.store (s.read_buffer_.take (readCount s))).advance (readCount s)
    read_buffer_ := s.read_buffer_.drop (readCount s)
    waiting_read_bytes_transferred_ := s.waiting_read_bytes_transferred_ + readCount s }

/-- The `process_read` loop as the design document words it, bounded by
`fuel` rounds: while the pending read buffer is non-empty and the inbound
buffer is non-empty, copy. -/
def process_read_loop : Nat → RudpSocket E → RudpSocket E
  | 0, s => s
  | fuel + 1, s =>
    if buffer_size s.waiting_read_buffer_ ≠ 0 ∧ s.read_buffer_ ≠ [] then
      process_read_loop fuel (process_read_copy s)
    else s

/-- The routine `process_read` as the design document words it: the loop,
then the completion signal once the region is full or
`bytes_transferred >= min_transfer`. -/
def process_read_spec (fuel : Nat) (s : RudpSocket E) : RudpSocket E :=
  let s1 := process_read_loop fuel s
  if buffer_size s1.waiting_read_buffer_ = 0 ∨
      s1.waiting_read_bytes_transferred_ ≥ s1.waiting_read_transfer_at_least_ then
    { s1 with
      waiting_read_ec_ := ErrorCode.success
      waiting_read_ := s1.waiting_read_ + 1 }
  else s1

/-- The connected sample socket holding three inbound bytes. -/
def threeBuffered : RudpSocket sampleEnv :=
  HandleReceiveFrom connectedSocket [0, 97, 98, 99] ⟨10, 5000⟩

/-- The state `start_read(region[10], min = 1)` hands to `ProcessRead` on the
socket holding three inbound bytes. -/
def readInstalled : RudpSocket sampleEnv :=
  { threeBuffered with
    waiting_read_buffer_ := MutableBuffer.ofBlock tenZeros
    waiting_read_transfer_at_least_ := 1
    waiting_read_bytes_transferred_ := 0 }

/-- The number of bytes of a region `X` that fit the sender:
`min(|X|, free_space())`. -/
def writeCount (s : RudpSocket E) (X : List Byte) : Nat :=
  min X.length (E.senderGetFreeSpace s.sender_)

/-- The state `start_write(X)` hands to `ProcessWrite`: the region installed,
the counter reset. -/
def writeInstalled (s : RudpSocket E) (X : List Byte) : RudpSocket E :=
  { s with
    waiting_write_buffer_ := X
    waiting_write_bytes_transferred_ := 0 }

/-- The body of the `process_write` loop as the design document words it: copy
as much as fits via `sender.add_data`, advancing the region cursor and
`bytes_transferred`. -/
def process_write_copy (s : RudpSocket E) : RudpSocket E :=
  { s with
    sender_ := (E.senderAddData s.sender_ s.waiting_write_buffer_).2
    waiting_write_buffer_ :=
      s.waiting_write_buffer_.drop (E.senderAddData s.sender_ s.waiting_write_buffer_).1
    waiting_write_bytes_transferred_ :=
      s.waiting_write_bytes_transferred_ +
        (E.senderAddData s.sender_ s.waiting_write_buffer_).1 }

/-- The `process_write` loop as the design document words it, bounded by
`fuel` rounds: while the pending write buffer is non-empty and
`sender.free_space() > 0`, copy. -/
def process_write_loop : Nat → RudpSocket E → RudpSocket E
  | 0, s => s
  | fuel + 1, s =>
    if s.waiting_write_buffer_.length ≠ 0 ∧ 0 < E.senderGetFreeSpace s.sender_ then
      process_write_loop fuel (process_write_copy s)
    else s

/-- The routine `process_write` as the design document words it: the loop on
a pending write, then the completion signal if the pending write buffer has
become empty. -/
def process_write_spec (fuel : Nat) (s : RudpSocket E) : RudpSocket E :=
  if s.waiting_write_buffer_.length = 0 then s
  else
    let s1 := process_write_loop fuel s
    if s1.waiting_write_buffer_.length = 0 then
      { s1 with
        waiting_write_ec_ := ErrorCode.success
        waiting_write_ := s1.waiting_write_ + 1 }
    else s1

/-- The connected sample socket whose sender (`SEND_CAP = 8`) already holds
five bytes. -/
def fiveInWindow : RudpSocket sampleEnv := StartWrite connectedSocket [1, 2, 3, 4, 5]

/-- The sample socket after `start_connect` only: its session is Opening. -/
def openingSocket : RudpSocket sampleEnv := StartConnect sampleSocket ⟨10, 5000⟩

/-- Whether the call starts a write or closes the socket; these two calls
terminate the write that is pending. -/
def SocketOp.endsWrite : SocketOp → Bool
  | SocketOp.start_write _ => true
  | SocketOp.close => true
  | _ => false

/-- The members of the write slot: the completion timer, the rest of the
region, the error code and the byte counter. -/
def writeSlot (s : RudpSocket E) : Nat × List Byte × ErrorCode × Nat :=
  (s.waiting_write_, s.waiting_write_buffer_, s.waiting_write_ec_,
   s.waiting_write_bytes_transferred_)

/-- The state of the C3 scenario after its first completion, followed by a
`start_read` with a region of length zero. -/
def emptyReadStarted : RudpSocket sampleEnv :=
  StartRead firstArrival (MutableBuffer.ofBlock []) 0

/-- A data packet of two bytes arrives after the zero-length read. -/
def afterEmptyRead : RudpSocket sampleEnv :=
  HandleReceiveFrom emptyReadStarted [0, 100, 101] ⟨10, 5000⟩

/-- A read of up to ten bytes with minimum one, then three calls: a packet of
two bytes, a write, and a second packet. -/
def mixedOps : List SocketOp :=
  [SocketOp.handle_receive [0, 97, 98] ⟨10, 5000⟩,
   SocketOp.start_write [1, 2, 3],
   SocketOp.handle_receive [0, 99] ⟨10, 5000⟩]

/-- After a write of sixteen bytes: an ack, a read, a data packet. -/
def afterWriteOps : List SocketOp :=
  [SocketOp.handle_receive [1, 8] ⟨10, 5000⟩,
   SocketOp.start_read (MutableBuffer.ofBlock tenZeros) 1,
   SocketOp.handle_receive [0, 97] ⟨10, 5000⟩]

/-- The state `start_read(region, min)` hands to `ProcessRead`: the region
installed, the minimum stored, the counter reset. -/
def readInstalledOn (s : RudpSocket E) (region : MutableBuffer) (transfer_at_least : Nat) :
    RudpSocket E :=
  { s with
    waiting_read_buffer_ := region
    waiting_read_transfer_at_least_ := transfer_at_least
    waiting_read_bytes_transferred_ := 0 }

/-! ## The legacy UDT transport: `maidsafe/transport/transportudt.cc`

The message framing of `TransportUDT`: the sender writes the size of the
message as decimal text and then the message; the receiver reads the size and
then that many bytes.  The UDT library is used in stream mode (`SOCK_STREAM`);
a connection is modelled from the receiver's side as the queue of bytes that
have been sent and not yet received. -/

/-- The typedef `DataSize`, declared in a header that is not at hand: a signed
integer type, given by its `sizeof` and its largest value. -/
structure DataSizeType where
  sizeof : Nat
  max : Nat
deriving DecidableEq, Repr

/-- The type `DataSize` as a 16-bit signed integer. -/
def DataSizeType.int16 : DataSizeType := ⟨2, 32767⟩

/-- The type `DataSize` as a 32-bit signed integer. -/
def DataSizeType.int32 : DataSizeType := ⟨4, 2147483647⟩

/-- The type `DataSize` as a 64-bit signed integer. -/
def DataSizeType.int64 : DataSizeType := ⟨8, 9223372036854775807⟩

/-- The values of `TransportCondition` that the framing functions return or
signal. -/
inductive TransportCondition
  | kSuccess
  | kSendUdtFailure
  | kSendTimeout
  | kReceiveUdtFailure
  | kReceiveTimeout
  | kReceiveParseFailure
  | kReceiveSizeFailure
deriving DecidableEq, Repr

/-- The call `UDT::send` on a stream socket without a send timeout: all the
bytes are queued for the receiver; the count sent and the new queue. -/
def UDT.send (queue : List Byte) (bytes : List Byte) : Nat × List Byte :=
  (bytes.length, queue ++ bytes)

/-- The call `UDT::recv(socket, buffer, len)` on a stream socket: up to `len`
of the queued bytes are taken, in order; nothing is taken (the call times out
and returns 0) if the queue is empty.  The bytes received and the new queue. -/
def UDT.recv (queue : List Byte) (len : Nat) : List Byte × List Byte :=
  (queue.take len, queue.drop len)

/-- The decimal digits of a number, most significant first, as ASCII codes;
`fuel` bounds the number of digits. -/
def decimalDigits : Nat → Nat → List Byte
  | 0, _ => []
  | fuel + 1, n =>
    if n < 10 then [48 + n] else decimalDigits fuel (n / 10) ++ [48 + n % 10]

/-- The conversion `boost::lexical_cast<std::string>(n)` of an unsigned
size. -/
def lexical_cast_string (n : Nat) : List Byte := decimalDigits (n + 1) n

/-- The value of an ASCII digit. -/
def digitValue (c : Byte) : Option Nat :=
  if 48 ≤ c ∧ c ≤ 57 then some (c - 48) else none

/-- The value of a run of ASCII digits, `none` if another character occurs. -/
def parseDigits : List Byte → Nat → Option Nat
  | [], acc => some acc
  | c :: cs, acc =>
    match digitValue c with
    | some v => parseDigits cs (acc * 10 + v)
    | none => none

/-- The conversion `boost::lexical_cast<DataSize>(text)`: an optional sign and
then digits only, the whole text being consumed and the value being in range;
`none` when it throws. -/
def lexical_cast_DataSize (T : DataSizeType) (text : List Byte) : Option Int :=
  match text with
  | [] => none
  | 45 :: cs =>
    if cs = [] then none
    else (parseDigits cs 0).bind fun n =>
      if n ≤ T.max + 1 then some (-(n : Int)) else none
  | 43 :: cs =>
    if cs = [] then none
    else (parseDigits cs 0).bind fun n => if n ≤ T.max then some (n : Int) else none
  | cs => (parseDigits cs 0).bind fun n => if n ≤ T.max then some (n : Int) else none

/-- The function `TransportUDT::SendDataSize`: the condition it returns and
the receiver's queue afterwards. -/
def TransportUDT.SendDataSize (T : DataSizeType) (data : List Byte) (queue : List Byte) :
    TransportCondition × List Byte :=
  let data_size_as_string := lexical_cast_string data.length
  if T.max < data.length then (TransportCondition.kSendUdtFailure, queue)
  else
    let sent := UDT.send queue data_size_as_string
    if sent.1 ≠ data_size_as_string.length then (TransportCondition.kSendTimeout, sent.2)
    else (TransportCondition.kSuccess, sent.2)

/-- The loop of `TransportUDT::SendDataContent`, bounded by `fuel` rounds:
`sent_total` bytes of the message have been sent. -/
def TransportUDT.SendDataContentLoop (data : List Byte) :
    Nat → Nat → List Byte → TransportCondition × List Byte
  | 0, _, queue => (TransportCondition.kSuccess, queue)
  | fuel + 1, sent_total, queue =>
    if sent_total < data.length then
      let sent := UDT.send queue (data.drop sent_total)
      if sent.1 = 0 then (TransportCondition.kSendTimeout, sent.2)
      else TransportUDT.SendDataContentLoop data fuel (sent_total + sent.1) sent.2
    else (TransportCondition.kSuccess, queue)

/-- The function `TransportUDT::SendDataContent`. -/
def TransportUDT.SendDataContent (data : List Byte) (queue : List Byte) :
    TransportCondition × List Byte :=
  TransportUDT.SendDataContentLoop data (data.length + 1) 0 queue

/-- The outcome of `TransportUDT::ReceiveDataSize`: the size it returns (0 on
every failure), the condition it signals on failure, and the queue it leaves. -/
structure ReceivedSize where
  data_size : Int
  signalled : Option TransportCondition
  queue : List Byte
deriving DecidableEq, Repr

/-- The function `TransportUDT::ReceiveDataSize`. -/
def TransportUDT.ReceiveDataSize (T : DataSizeType) (queue : List Byte) : ReceivedSize :=
  let received := UDT.recv queue T.sizeof
  if received.1.length = 0 then ⟨0, some TransportCondition.kReceiveTimeout, received.2⟩
  else
    match lexical_cast_DataSize T received.1 with
    | none => ⟨0, some TransportCondition.kReceiveParseFailure, received.2⟩
    | some data_size =>
      if data_size < 1 then ⟨0, some TransportCondition.kReceiveSizeFailure, received.2⟩
      else ⟨data_size, none, received.2⟩

/-- The loop of `TransportUDT::ReceiveDataContent`, bounded by `fuel` rounds:
`data` holds the `received_total` bytes received so far.  The text returned
(empty on a timeout) and the queue left. -/
def TransportUDT.ReceiveDataContentLoop (data_size : Nat) :
    Nat → List Byte → List Byte → List Byte × List Byte
  | 0, data, queue => (data, queue)
  | fuel + 1, data, queue =>
    if data.length < data_size then
      let received := UDT.recv queue (data_size - data.length)
      if received.1.length = 0 then ([], received.2)
      else TransportUDT.ReceiveDataContentLoop data_size fuel (data ++ received.1) received.2
    else (data, queue)

/-- The function `TransportUDT::ReceiveDataContent`. -/
def TransportUDT.ReceiveDataContent (queue : List Byte) (data_size : Int) :
    List Byte × List Byte :=
  TransportUDT.ReceiveDataContentLoop data_size.toNat (data_size.toNat + 1) [] queue

/-- The receiver's queue after `SendDataSize(d)` and `SendDataContent(d)` on a
fresh connection. -/
def sentStream (T : DataSizeType) (d : List Byte) : List Byte :=
  (TransportUDT.SendDataContent d (TransportUDT.SendDataSize T d []).2).2

/-- The message `hello`. -/
def helloMessage : List Byte := [104, 101, 108, 108, 111]

/-- A message of twelve bytes. -/
def twelveBytes : List Byte := List.replicate 12 120

/-- A message of one hundred bytes. -/
def hundredBytes : List Byte := List.replicate 100 120

/-- A freshly constructed socket at address 1 whose peer has been preset for
the responder's `start_connect()`, on a table that already routes id 5 to
another socket (at address 9). -/
def presetSocket : RudpSocket sampleEnv :=
  { RudpSocket.create sampleEnv 1 [(5, 9)] with peer_ := ⟨⟨10, 5000⟩, 7⟩ }

/-- The responder's run: `start_connect()`, the peer's handshake, a write. -/
def responderRun : List SocketOp :=
  [SocketOp.start_connect_server,
   SocketOp.handle_receive [2, 7] ⟨10, 5000⟩,
   SocketOp.start_write [1, 2]]

/-! ## Basic facts about the progress routines -/

section Lemmas

variable {E : Collaborators}

theorem ProcessRead_read_buffer_length_le (s : RudpSocket E) :
    (ProcessRead s).read_buffer_.length ≤ s.read_buffer_.length := by
  unfold ProcessRead
  dsimp only
  split_ifs <;> simp

theorem ProcessWrite_read_buffer (s : RudpSocket E) :
    (ProcessWrite s).read_buffer_ = s.read_buffer_ := by
  unfold ProcessWrite
  dsimp only
  split_ifs <;> rfl

theorem StartWrite_read_buffer (s : RudpSocket E) (data : List Byte) :
    (StartWrite s data).read_buffer_ = s.read_buffer_ := by
  unfold StartWrite
  split_ifs
  · rfl
  · rw [ProcessWrite_read_buffer]

theorem StartRead_read_buffer_length_le (s : RudpSocket E) (data : MutableBuffer)
    (transfer_at_least : Nat) :
    (StartRead s data transfer_at_least).read_buffer_.length ≤ s.read_buffer_.length := by
  unfold StartRead
  split_ifs
  · exact Nat.le_refl _
  · exact ProcessRead_read_buffer_length_le _

theorem HandleHandshake_read_buffer (s : RudpSocket E) (packet : E.HandshakePacket) :
    (HandleHandshake s packet).read_buffer_ = s.read_buffer_ := by
  unfold HandleHandshake
  dsimp only
  split_ifs <;> rfl

theorem HandleAck_read_buffer (s : RudpSocket E) (packet : E.AckPacket) :
    (HandleAck s packet).read_buffer_ = s.read_buffer_ := by
  unfold HandleAck
  split_ifs <;> rfl

theorem HandleData_read_buffer_bounded (s : RudpSocket E) (packet : E.DataPacket)
    (h : s.read_buffer_.length ≤ E.kMaxReadBufferSize) :
    (HandleData s packet).read_buffer_.length ≤ E.kMaxReadBufferSize := by
  unfold HandleData
  split_ifs with hc hlt
  · refine Nat.le_trans (ProcessRead_read_buffer_length_le _) ?_
    simp only [List.length_append]
    exact Nat.le_of_lt hlt
  · exact h
  · exact h

theorem HandleReceiveFrom_read_buffer_bounded (s : RudpSocket E) (data : List Byte)
    (endpoint : Endpoint) (h : s.read_buffer_.length ≤ E.kMaxReadBufferSize) :
    (HandleReceiveFrom s data endpoint).read_buffer_.length ≤ E.kMaxReadBufferSize := by
  unfold HandleReceiveFrom
  split
  · exact HandleData_read_buffer_bounded s _ h
  · split
    · rw [HandleAck_read_buffer]; exact h
    · split
      · rw [HandleHandshake_read_buffer]; exact h
      · exact h

theorem step_read_buffer_bounded (s s1 : RudpSocket E) (op : SocketOp)
    (hstep : step s op = some s1) (h : s.read_buffer_.length ≤ E.kMaxReadBufferSize) :
    s1.read_buffer_.length ≤ E.kMaxReadBufferSize := by
  cases op with
  | start_connect remote =>
    simp only [step, Option.some.injEq] at hstep
    subst hstep
    exact h
  | start_connect_server =>
    simp only [step, StartConnectServer] at hstep
    split_ifs at hstep
    simp only [Option.some.injEq] at hstep
    subst hstep
    exact h
  | start_write data =>
    simp only [step, Option.some.injEq] at hstep
    subst hstep
    rw [StartWrite_read_buffer]; exact h
  | start_read data transfer_at_least =>
    simp only [step, Option.some.injEq] at hstep
    subst hstep
    exact Nat.le_trans (StartRead_read_buffer_length_le _ _ _) h
  | handle_receive data endpoint =>
    simp only [step, Option.some.injEq] at hstep
    subst hstep
    exact HandleReceiveFrom_read_buffer_bounded s data endpoint h
  | close =>
    simp only [step, Option.some.injEq] at hstep
    subst hstep
    exact h

theorem run_read_buffer_bounded (ops : List SocketOp) (s s1 : RudpSocket E)
    (hrun : run s ops = some s1) (h : s.read_buffer_.length ≤ E.kMaxReadBufferSize) :
    s1.read_buffer_.length ≤ E.kMaxReadBufferSize := by
  induction ops generalizing s with
  | nil =>
    simp only [run, Option.some.injEq] at hrun
    subst hrun
    exact h
  | cons op ops ih =>
    simp only [run] at hrun
    cases hs : step s op with
    | none => rw [hs] at hrun; simp at hrun
    | some s2 =>
      rw [hs] at hrun
      exact ih s2 hrun (step_read_buffer_bounded s s2 op hs h)

end Lemmas

/-! ## C1: the inbound buffer never exceeds the cap -/

/-- C1. Whatever calls are made on a freshly constructed socket
(`start_connect` in either form, `start_read`, `start_write`, `handle_receive`
of any datagram, `close`), and whatever the collaborators do, the inbound
buffer holds at most `kMaxReadBufferSize` bytes afterwards. -/
theorem inbound_buffer_within_cap (E : Collaborators) (self : Nat)
    (dispatcher : E.Dispatcher) (ops : List SocketOp) (s : RudpSocket E)
    (hrun : run (RudpSocket.create E self dispatcher) ops = some s) :
    s.read_buffer_.length ≤ E.kMaxReadBufferSize :=
  run_read_buffer_bounded ops _ s hrun (Nat.zero_le _)

/-- C1, at a concrete run: connect, handshake, two data packets of which the
second would overfill a cap of 4, a read, a close. -/
theorem inbound_buffer_within_cap_witness :
    ∃ s : RudpSocket (specEnv (sampleParams 4 8)),
      run (RudpSocket.create (specEnv (sampleParams 4 8)) 1 []) overfillRun = some s ∧
      s.read_buffer_ = [98, 99] ∧
      s.read_buffer_.length ≤ (specEnv (sampleParams 4 8)).kMaxReadBufferSize :=
  ⟨_, rfl, rfl,
    inbound_buffer_within_cap (specEnv (sampleParams 4 8)) 1 [] overfillRun _ rfl⟩

/-! ## C2: close aborts the three pending operations -/

/-- C2. After `close()` the connect, write and read slots each carry
`operation_aborted`, the write and read slots report zero bytes transferred,
and each of the three completion timers has been cancelled once more. -/
theorem close_aborts_pending (E : Collaborators) (s : RudpSocket E) :
    (Close s).waiting_connect_ec_ = ErrorCode.operation_aborted ∧
    (Close s).waiting_write_ec_ = ErrorCode.operation_aborted ∧
    (Close s).waiting_read_ec_ = ErrorCode.operation_aborted ∧
    (Close s).waiting_write_bytes_transferred_ = 0 ∧
    (Close s).waiting_read_bytes_transferred_ = 0 ∧
    (Close s).waiting_connect_ = s.waiting_connect_ + 1 ∧
    (Close s).waiting_write_ = s.waiting_write_ + 1 ∧
    (Close s).waiting_read_ = s.waiting_read_ + 1 :=
  ⟨rfl, rfl, rfl, rfl, rfl, rfl, rfl, rfl⟩

/-! ## C3: bytes reach the reader in arrival order -/

/-- C3. The code at a run that the statement covers: a read of up to ten bytes
with minimum one is pending, `abc` arrives and completes it with three bytes
transferred; `def` arrives before the next read is started and is copied into
the region of the read that has completed (its cursor was left in place), so
the inbound buffer is empty again; the next read finds nothing.  The bytes of
the first completion followed by the inbound buffer are `abc`, not `abcdef`. -/
theorem completed_read_region_absorbs_later_payload :
    readStarted.waiting_read_ = 0 ∧
    firstArrival.waiting_read_ = 1 ∧
    firstArrival.waiting_read_ec_ = ErrorCode.success ∧
    firstArrival.waiting_read_bytes_transferred_ = 3 ∧
    firstArrival.waiting_read_buffer_.filled 3 = [97, 98, 99] ∧
    buffer_size firstArrival.waiting_read_buffer_ = 7 ∧
    secondArrival.read_buffer_ = [] ∧
    secondArrival.waiting_read_buffer_.mem = [97, 98, 99, 100, 101, 102, 0, 0, 0, 0] ∧
    secondArrival.waiting_read_bytes_transferred_ = 6 ∧
    nextRead.waiting_read_ = secondArrival.waiting_read_ ∧
    nextRead.waiting_read_bytes_transferred_ = 0 ∧
    nextRead.waiting_read_buffer_ = MutableBuffer.ofBlock tenZeros ∧
    nextRead.read_buffer_ = [] ∧
    firstArrival.waiting_read_buffer_.filled 3 ++ nextRead.read_buffer_ ≠
      [97, 98, 99] ++ [100, 101, 102] := by
  decide

/-! ## C4: back-pressure on a write larger than the sender's space -/

section WriteSlot

variable {E : Collaborators}

theorem ProcessRead_write_slot (s : RudpSocket E) :
    (ProcessRead s).waiting_write_ = s.waiting_write_ ∧
    (ProcessRead s).waiting_write_buffer_ = s.waiting_write_buffer_ ∧
    (ProcessRead s).waiting_write_ec_ = s.waiting_write_ec_ ∧
    (ProcessRead s).waiting_write_bytes_transferred_ = s.waiting_write_bytes_transferred_ := by
  unfold ProcessRead
  dsimp only
  split_ifs <;> exact ⟨rfl, rfl, rfl, rfl⟩

theorem HandleReceiveFrom_write_slot (s : RudpSocket E) (data : List Byte)
    (endpoint : Endpoint) :
    (HandleReceiveFrom s data endpoint).waiting_write_ = s.waiting_write_ ∧
    (HandleReceiveFrom s data endpoint).waiting_write_buffer_ = s.waiting_write_buffer_ ∧
    (HandleReceiveFrom s data endpoint).waiting_write_ec_ = s.waiting_write_ec_ ∧
    (HandleReceiveFrom s data endpoint).waiting_write_bytes_transferred_ =
      s.waiting_write_bytes_transferred_ := by
  unfold HandleReceiveFrom
  split
  · unfold HandleData
    split_ifs
    · exact ProcessRead_write_slot _
    · exact ⟨rfl, rfl, rfl, rfl⟩
    · exact ⟨rfl, rfl, rfl, rfl⟩
  · split
    · unfold HandleAck
      split_ifs <;> exact ⟨rfl, rfl, rfl, rfl⟩
    · split
      · unfold HandleHandshake
        dsimp only
        split_ifs <;> exact ⟨rfl, rfl, rfl, rfl⟩
      · exact ⟨rfl, rfl, rfl, rfl⟩

theorem receiveAll_write_slot (datagrams : List (List Byte × Endpoint)) (s : RudpSocket E) :
    (receiveAll s datagrams).waiting_write_ = s.waiting_write_ ∧
    (receiveAll s datagrams).waiting_write_buffer_ = s.waiting_write_buffer_ ∧
    (receiveAll s datagrams).waiting_write_ec_ = s.waiting_write_ec_ ∧
    (receiveAll s datagrams).waiting_write_bytes_transferred_ =
      s.waiting_write_bytes_transferred_ := by
  induction datagrams generalizing s with
  | nil => exact ⟨rfl, rfl, rfl, rfl⟩
  | cons datagram rest ih =>
    have h1 := HandleReceiveFrom_write_slot s datagram.1 datagram.2
    have h2 := ih (HandleReceiveFrom s datagram.1 datagram.2)
    simp only [receiveAll, List.foldl_cons] at h2 ⊢
    exact ⟨h2.1.trans h1.1, h2.2.1.trans h1.2.1, h2.2.2.1.trans h1.2.2.1,
      h2.2.2.2.trans h1.2.2.2⟩

end WriteSlot

/-- C4. The code at the back-pressure scenario.  With `SEND_CAP = 8` and an
empty sender, `start_write` of sixteen bytes absorbs eight and stays pending.
An ack that empties the sender's window restores eight bytes of free space,
yet the pending write is where it was: eight bytes transferred, eight bytes
left, no completion.  No sequence of datagrams of any kind moves it further:
`handle_receive` never reaches `ProcessWrite`. -/
theorem pending_write_stalls_after_ack :
    writeStarted.waiting_write_bytes_transferred_ = 8 ∧
    writeStarted.waiting_write_buffer_ = [9, 10, 11, 12, 13, 14, 15, 16] ∧
    writeStarted.waiting_write_ = 0 ∧
    SpecSender.free_space writeStarted.sender_ = 0 ∧
    SpecSender.free_space (HandleReceiveFrom writeStarted [1, 8] ⟨10, 5000⟩).sender_ = 8 ∧
    (HandleReceiveFrom writeStarted [1, 8] ⟨10, 5000⟩).session_.state =
      SessionState.Connected ∧
    ∀ datagrams : List (List Byte × Endpoint),
      (receiveAll writeStarted datagrams).waiting_write_bytes_transferred_ = 8 ∧
      (receiveAll writeStarted datagrams).waiting_write_buffer_ =
        [9, 10, 11, 12, 13, 14, 15, 16] ∧
      (receiveAll writeStarted datagrams).waiting_write_ = 0 := by
  refine ⟨by decide, by decide, by decide, by decide, by decide, by decide, ?_⟩
  intro datagrams
  have h := receiveAll_write_slot datagrams writeStarted
  refine ⟨h.2.2.2.trans (by decide), h.2.1.trans (by decide), h.1.trans (by decide)⟩

/-! ## C5: a data packet that does not fit is dropped -/

/-- C5. On a connected socket, a datagram that decodes as a data packet whose
payload would bring the inbound buffer to `kMaxReadBufferSize` or beyond
leaves the socket exactly as it was: the inbound buffer, the pending read
region, the read slot's counter and error code, the completion timers and
every other member are unchanged. -/
theorem oversize_data_packet_dropped (E : Collaborators) (s : RudpSocket E)
    (data : List Byte) (endpoint : Endpoint) (packet : E.DataPacket)
    (hdecode : E.decodeData data = some packet)
    (hconnected : E.sessionIsConnected s.session_ = true)
    (hfull : s.read_buffer_.length + (E.packetData packet).length ≥ E.kMaxReadBufferSize) :
    HandleReceiveFrom s data endpoint = s := by
  unfold HandleReceiveFrom
  rw [hdecode]
  dsimp only
  unfold HandleData
  rw [if_pos hconnected, if_neg (Nat.not_lt.mpr hfull)]

/-- C5, at the scenario of the design document: with a cap of 4, a connected
socket with a read pending is fed a data packet of eight bytes. -/
theorem oversize_data_packet_dropped_witness :
    (specEnv (sampleParams 4 8)).decodeData [0, 1, 2, 3, 4, 5, 6, 7, 8] =
        some [1, 2, 3, 4, 5, 6, 7, 8] ∧
    (specEnv (sampleParams 4 8)).sessionIsConnected smallCapSocket.session_ = true ∧
    HandleReceiveFrom smallCapSocket [0, 1, 2, 3, 4, 5, 6, 7, 8] ⟨10, 5000⟩ = smallCapSocket :=
  ⟨rfl, rfl,
    oversize_data_packet_dropped (specEnv (sampleParams 4 8)) smallCapSocket
      [0, 1, 2, 3, 4, 5, 6, 7, 8] ⟨10, 5000⟩ [1, 2, 3, 4, 5, 6, 7, 8] rfl rfl (by decide)⟩

/-! ## The life of a pending read -/

section ReadSlot

variable {E : Collaborators}

theorem ProcessWrite_readSlot (s : RudpSocket E) :
    readSlot (ProcessWrite s) = readSlot s := by
  unfold ProcessWrite
  dsimp only
  split_ifs <;> rfl

theorem step_preserves_read_view (P : RudpSocket E → Prop)
    (hview : ∀ s s1 : RudpSocket E, readSlot s1 = readSlot s →
      s1.read_buffer_ = s.read_buffer_ → P s → P s1)
    (hdata : ∀ (s : RudpSocket E) (payload : List Byte), P s →
      P (ProcessRead { s with read_buffer_ := s.read_buffer_ ++ payload }))
    (s s1 : RudpSocket E) (op : SocketOp) (hop : op.endsRead = false)
    (hstep : step s op = some s1) (h : P s) : P s1 := by
  cases op with
  | start_connect remote =>
    simp only [step, Option.some.injEq] at hstep
    subst hstep
    exact hview s _ rfl rfl h
  | start_connect_server =>
    simp only [step, StartConnectServer] at hstep
    split_ifs at hstep
    simp only [Option.some.injEq] at hstep
    subst hstep
    exact hview s _ rfl rfl h
  | start_write data =>
    simp only [step, Option.some.injEq] at hstep
    subst hstep
    refine hview s _ ?_ (StartWrite_read_buffer s data) h
    unfold StartWrite
    split_ifs
    · rfl
    · rw [ProcessWrite_readSlot]; rfl
  | start_read data transfer_at_least => simp [SocketOp.endsRead] at hop
  | handle_receive data endpoint =>
    simp only [step, Option.some.injEq] at hstep
    subst hstep
    unfold HandleReceiveFrom
    split
    · unfold HandleData
      split_ifs
      · exact hdata s _ h
      · exact h
      · exact h
    · split
      · unfold HandleAck
        split_ifs
        · exact hview s _ rfl rfl h
        · exact h
      · split
        · unfold HandleHandshake
          dsimp only
          split_ifs
          · exact hview s _ rfl rfl h
          · exact hview s _ rfl rfl h
        · exact h
  | close => simp [SocketOp.endsRead] at hop

theorem run_preserves_read_view (P : RudpSocket E → Prop)
    (hview : ∀ s s1 : RudpSocket E, readSlot s1 = readSlot s →
      s1.read_buffer_ = s.read_buffer_ → P s → P s1)
    (hdata : ∀ (s : RudpSocket E) (payload : List Byte), P s →
      P (ProcessRead { s with read_buffer_ := s.read_buffer_ ++ payload }))
    (ops : List SocketOp) (s s1 : RudpSocket E)
    (hops : ∀ op ∈ ops, op.endsRead = false)
    (hrun : run s ops = some s1) (h : P s) : P s1 := by
  induction ops generalizing s with
  | nil =>
    simp only [run, Option.some.injEq] at hrun
    subst hrun
    exact h
  | cons op ops ih =>
    simp only [run] at hrun
    cases hs : step s op with
    | none => rw [hs] at hrun; simp at hrun
    | some s2 =>
      rw [hs] at hrun
      exact ih s2 (fun o ho => hops o (List.mem_cons_of_mem _ ho)) hrun
        (step_preserves_read_view P hview hdata s s2 op
          (hops op (List.mem_cons_self _ _)) hs h)

theorem ProcessRead_FillPending (R f0 : Nat) (s : RudpSocket E)
    (h : FillPending R f0 s) : FillPending R f0 (ProcessRead s) := by
  obtain ⟨h1, h2, h3, h4⟩ := h
  unfold ProcessRead
  dsimp only
  split_ifs with hz he hc
  · exact ⟨h1, h2, h3, h4⟩
  · exact ⟨h1, h2, h3, h4⟩
  · simp only [FillPending, buffer_size, MutableBuffer.advance, MutableBuffer.store] at *
    have hlen : 0 < s.read_buffer_.length := by
      cases hb : s.read_buffer_ with
      | nil => simp [hb] at he
      | cons a l => simp
    refine ⟨h1, by omega, ?_, fun _ => trivial⟩
    rcases hc with hc | hc
    · rw [if_pos hc, if_neg hz] at *
      omega
    · omega
  · simp only [FillPending, buffer_size, MutableBuffer.advance, MutableBuffer.store] at *
    push_neg at hc
    refine ⟨h1, by omega, ?_, fun hcon => absurd hcon hc.1⟩
    rw [if_neg hc.1]
    rw [if_neg hz] at h3
    exact h3

theorem ProcessRead_AnyBytePending (R f0 : Nat) (s : RudpSocket E)
    (h : s.waiting_read_transfer_at_least_ = 0 ∧
      s.waiting_read_bytes_transferred_ + buffer_size s.waiting_read_buffer_ = R ∧
      (s.waiting_read_bytes_transferred_ = 0 → s.waiting_read_ = f0) ∧
      (1 ≤ s.waiting_read_bytes_transferred_ →
        f0 < s.waiting_read_ ∧ s.waiting_read_ec_ = ErrorCode.success)) :
    AnyBytePending R f0 (ProcessRead s) := by
  obtain ⟨h1, h2, h3, h4⟩ := h
  unfold ProcessRead
  dsimp only
  split_ifs with hz he hc
  · exact ⟨h1, h2, h3, h4, Or.inl hz⟩
  · exact ⟨h1, h2, h3, h4, Or.inr (by simpa using he)⟩
  · simp only [AnyBytePending, buffer_size, MutableBuffer.advance, MutableBuffer.store] at *
    have hlen : 0 < s.read_buffer_.length := by
      cases hb : s.read_buffer_ with
      | nil => simp [hb] at he
      | cons a l => simp
    refine ⟨h1, by omega, fun h0 => by omega, fun _ => ⟨?_, trivial⟩, ?_⟩
    · by_cases hb : s.waiting_read_bytes_transferred_ = 0
      · have := h3 hb; omega
      · have := (h4 (by omega)).1; omega
    · by_cases hle : s.read_buffer_.length ≤ s.waiting_read_buffer_.size
      · right
        rw [List.drop_eq_nil_iff]
        omega
      · left
        omega
  · simp only [buffer_size] at *
    push_neg at hc
    omega

end ReadSlot

/-! ## C6: a minimum larger than the region -/

/-- C6. After `start_read(region, min)` with a non-empty region and
`min > region.size()`, and after any further calls that neither start another
read nor close the socket, the read timer has fired exactly once more if
`bytes_transferred == region.size()` and not at all if `bytes_transferred` is
smaller; when it has fired the error code is clear.  Since this holds after
every such sequence of calls, the completion is signalled at the call that
fills the region and at no earlier one. -/
theorem read_with_large_minimum_completes_when_full (E : Collaborators)
    (s0 s : RudpSocket E) (region : MutableBuffer) (transfer_at_least : Nat)
    (ops : List SocketOp)
    (hregion : 0 < buffer_size region)
    (hmin : buffer_size region < transfer_at_least)
    (hops : ∀ op ∈ ops, op.endsRead = false)
    (hrun : run (StartRead s0 region transfer_at_least) ops = some s) :
    s.waiting_read_bytes_transferred_ ≤ buffer_size region ∧
    (s.waiting_read_ = s0.waiting_read_ + 1 ↔
      s.waiting_read_bytes_transferred_ = buffer_size region) ∧
    (s.waiting_read_ = s0.waiting_read_ ↔
      s.waiting_read_bytes_transferred_ < buffer_size region) ∧
    (s.waiting_read_bytes_transferred_ = buffer_size region →
      s.waiting_read_ec_ = ErrorCode.success) := by
  have hstart : FillPending (buffer_size region) s0.waiting_read_
      (StartRead s0 region transfer_at_least) := by
    unfold StartRead
    rw [if_neg (Nat.pos_iff_ne_zero.mp hregion)]
    apply ProcessRead_FillPending
    refine ⟨hmin, by simp, ?_, fun h => absurd h (Nat.pos_iff_ne_zero.mp hregion)⟩
    simp [Nat.pos_iff_ne_zero.mp hregion]
  have hend : FillPending (buffer_size region) s0.waiting_read_ s := by
    refine run_preserves_read_view (FillPending (buffer_size region) s0.waiting_read_)
      ?_ ?_ ops _ s hops hrun hstart
    · intro a b hslot _ ha
      simp only [readSlot, Prod.mk.injEq] at hslot
      obtain ⟨e1, e2, e3, e4, e5⟩ := hslot
      simpa only [FillPending, e1, e2, e3, e4, e5] using ha
    · intro a payload ha
      exact ProcessRead_FillPending _ _ _ ha
  obtain ⟨_, h2, h3, h4⟩ := hend
  by_cases hz : buffer_size s.waiting_read_buffer_ = 0
  · rw [if_pos hz] at h3
    refine ⟨by omega, ⟨fun _ => by omega, fun _ => h3⟩, ⟨fun _ => by omega, fun _ => by omega⟩,
      fun _ => h4 hz⟩
  · rw [if_neg hz] at h3
    refine ⟨by omega, ⟨fun _ => by omega, fun _ => by omega⟩, ⟨fun _ => by omega, fun _ => h3⟩,
      fun _ => by omega⟩

/-- C6, at a concrete run: a region of three bytes with minimum five; after
two packets of two bytes the region is full, the timer has fired once, and the
fourth byte waits in the inbound buffer. -/
theorem read_with_large_minimum_completes_when_full_witness :
    ∃ s : RudpSocket sampleEnv,
      run (StartRead connectedSocket (MutableBuffer.ofBlock [0, 0, 0]) 5) twoPackets = some s ∧
      s.read_buffer_ = [100] ∧
      s.waiting_read_buffer_.mem = [97, 98, 99] ∧
      s.waiting_read_bytes_transferred_ ≤ 3 ∧
      (s.waiting_read_ = connectedSocket.waiting_read_ + 1 ↔
        s.waiting_read_bytes_transferred_ = 3) ∧
      (s.waiting_read_ = connectedSocket.waiting_read_ ↔
        s.waiting_read_bytes_transferred_ < 3) ∧
      (s.waiting_read_bytes_transferred_ = 3 → s.waiting_read_ec_ = ErrorCode.success) :=
  ⟨_, rfl, rfl, rfl,
    read_with_large_minimum_completes_when_full sampleEnv connectedSocket _
      (MutableBuffer.ofBlock [0, 0, 0]) 5 twoPackets (by decide) (by decide) (by decide) rfl⟩

/-! ## C7: a minimum of zero -/

/-- C7. After `start_read(region, 0)` with a non-empty region, and after any
further calls that neither start another read nor close the socket: as long as
`bytes_transferred` is zero the inbound buffer is empty and the read timer has
not fired; as soon as `bytes_transferred` is at least one the timer has fired
and the error code is clear.  Since this holds after every such sequence of
calls, the read completes at the first call that transfers a byte. -/
theorem read_with_zero_minimum_completes_on_first_byte (E : Collaborators)
    (s0 s : RudpSocket E) (region : MutableBuffer) (ops : List SocketOp)
    (hregion : 0 < buffer_size region)
    (hops : ∀ op ∈ ops, op.endsRead = false)
    (hrun : run (StartRead s0 region 0) ops = some s) :
    (s.waiting_read_bytes_transferred_ = 0 →
      s.read_buffer_ = [] ∧ s.waiting_read_ = s0.waiting_read_) ∧
    (1 ≤ s.waiting_read_bytes_transferred_ →
      s0.waiting_read_ < s.waiting_read_ ∧ s.waiting_read_ec_ = ErrorCode.success) := by
  have hstart : AnyBytePending (buffer_size region) s0.waiting_read_
      (StartRead s0 region 0) := by
    unfold StartRead
    rw [if_neg (Nat.pos_iff_ne_zero.mp hregion)]
    apply ProcessRead_AnyBytePending
    refine ⟨rfl, by simp, fun _ => rfl, fun h => ?_⟩
    simp at h
  have hend : AnyBytePending (buffer_size region) s0.waiting_read_ s := by
    refine run_preserves_read_view (AnyBytePending (buffer_size region) s0.waiting_read_)
      ?_ ?_ ops _ s hops hrun hstart
    · intro a b hslot hbuf ha
      simp only [readSlot, Prod.mk.injEq] at hslot
      obtain ⟨e1, e2, e3, e4, e5⟩ := hslot
      simpa only [AnyBytePending, e1, e2, e3, e4, e5, hbuf] using ha
    · intro a payload ha
      exact ProcessRead_AnyBytePending _ _ _ ⟨ha.1, ha.2.1, ha.2.2.1, ha.2.2.2.1⟩
  obtain ⟨_, h2, h3, h4, h5⟩ := hend
  refine ⟨fun h0 => ⟨?_, h3 h0⟩, h4⟩
  rcases h5 with h5 | h5
  · omega
  · exact h5

/-- C7, at a concrete run: a region of ten bytes with minimum zero on an empty
inbound buffer; the first packet transfers two bytes and completes the read. -/
theorem read_with_zero_minimum_completes_on_first_byte_witness :
    (StartRead connectedSocket (MutableBuffer.ofBlock tenZeros) 0).waiting_read_ = 0 ∧
    ∃ s : RudpSocket sampleEnv,
      run (StartRead connectedSocket (MutableBuffer.ofBlock tenZeros) 0)
        [SocketOp.handle_receive [0, 97, 98] ⟨10, 5000⟩] = some s ∧
      s.waiting_read_bytes_transferred_ = 2 ∧
      s.waiting_read_ = 1 ∧
      (s.waiting_read_bytes_transferred_ = 0 →
        s.read_buffer_ = [] ∧ s.waiting_read_ = connectedSocket.waiting_read_) ∧
      (1 ≤ s.waiting_read_bytes_transferred_ →
        connectedSocket.waiting_read_ < s.waiting_read_ ∧
        s.waiting_read_ec_ = ErrorCode.success) :=
  ⟨rfl, _, rfl, rfl, rfl,
    read_with_zero_minimum_completes_on_first_byte sampleEnv connectedSocket _
      (MutableBuffer.ofBlock tenZeros) [SocketOp.handle_receive [0, 97, 98] ⟨10, 5000⟩]
      (by decide) (by decide) rfl⟩

/-! ## C8: zero-length operations -/

/-- C8. `start_write` of a zero-length region and `start_read` of a
zero-length region each clear the error code of their slot and cancel its
timer, and do nothing else: the sender, the inbound buffer, the installed
regions and the byte counters are the ones the socket had. -/
theorem zero_length_start_only_completes (E : Collaborators) (s : RudpSocket E)
    (region : MutableBuffer) (transfer_at_least : Nat)
    (hregion : buffer_size region = 0) :
    StartWrite s [] =
      { s with
        waiting_write_ec_ := ErrorCode.success
        waiting_write_ := s.waiting_write_ + 1 } ∧
    (StartWrite s []).sender_ = s.sender_ ∧
    StartRead s region transfer_at_least =
      { s with
        waiting_read_ec_ := ErrorCode.success
        waiting_read_ := s.waiting_read_ + 1 } ∧
    (StartRead s region transfer_at_least).read_buffer_ = s.read_buffer_ := by
  have hread : StartRead s region transfer_at_least =
      { s with
        waiting_read_ec_ := ErrorCode.success
        waiting_read_ := s.waiting_read_ + 1 } := by
    unfold StartRead
    rw [if_pos hregion]
  refine ⟨rfl, rfl, hread, ?_⟩
  rw [hread]

/-- C8, at a concrete state: a connected socket holding three inbound bytes
and a sender with free space is given an empty write and a read into an
exhausted region. -/
theorem zero_length_start_only_completes_witness :
    buffer_size (MutableBuffer.mk [5, 6] 2 0) = 0 ∧
    (HandleReceiveFrom connectedSocket [0, 97, 98, 99] ⟨10, 5000⟩).read_buffer_ =
      [97, 98, 99] ∧
    (StartWrite (HandleReceiveFrom connectedSocket [0, 97, 98, 99] ⟨10, 5000⟩) []).sender_ =
      connectedSocket.sender_ ∧
    (StartRead (HandleReceiveFrom connectedSocket [0, 97, 98, 99] ⟨10, 5000⟩)
      (MutableBuffer.mk [5, 6] 2 0) 1).read_buffer_ = [97, 98, 99] :=
  ⟨rfl, rfl,
    (zero_length_start_only_completes sampleEnv
      (HandleReceiveFrom connectedSocket [0, 97, 98, 99] ⟨10, 5000⟩)
      (MutableBuffer.mk [5, 6] 2 0) 1 rfl).2.1,
    rfl⟩

/-! ## C9: the socket in the dispatcher's table -/

section Dispatcher

theorem lookup_remove_socket (d : SpecDispatcher) (id : Nat) :
    SpecDispatcher.lookup (SpecDispatcher.remove_socket d id) id = none := by
  unfold SpecDispatcher.lookup SpecDispatcher.remove_socket
  induction d with
  | nil => rfl
  | cons entry rest ih =>
    obtain ⟨k, v⟩ := entry
    by_cases hk : k = id
    · simp [List.filter_cons, hk]
      simpa using ih
    · have hne : (id == k) = false := by
        simp only [beq_eq_false_iff_ne, ne_eq]
        exact fun h => hk h.symm
      simp only [List.filter_cons, ne_eq, hk, not_false_eq_true, decide_True, if_true,
        List.lookup_cons, hne]
      simpa using ih

theorem filter_remove_socket (d : SpecDispatcher) (id socket : Nat)
    (h : List.filter (fun entry : Nat × Nat => decide (entry.2 = socket)) d = [(id, socket)]) :
    List.filter (fun entry : Nat × Nat => decide (entry.2 = socket))
      (SpecDispatcher.remove_socket d id) = [] := by
  unfold SpecDispatcher.remove_socket
  rw [List.filter_filter]
  have hcomm : List.filter
      (fun entry : Nat × Nat => decide (entry.2 = socket) && decide (entry.1 ≠ id)) d =
      List.filter (fun entry : Nat × Nat => decide (entry.1 ≠ id))
        (List.filter (fun entry : Nat × Nat => decide (entry.2 = socket)) d) := by
    rw [List.filter_filter]
    congr 1
    funext entry
    exact Bool.and_comm _ _
  rw [hcomm, h]
  simp

theorem handle_handshake_state (valid : Mode → RudpPeer → Nat → Bool) (x : SpecSession)
    (peer : RudpPeer) (packet : Nat) :
    (SpecSession.handle_handshake valid x peer packet).1.local_id = x.local_id ∧
    ((SpecSession.handle_handshake valid x peer packet).1.state = SessionState.Closed ↔
      x.state = SessionState.Closed) := by
  unfold SpecSession.handle_handshake
  by_cases h : x.state = SessionState.Opening ∧ valid x.role peer packet = true
  · rw [if_pos h]
    refine ⟨rfl, ?_⟩
    simp [h.1]
  · rw [if_neg h]
    exact ⟨rfl, Iff.rfl⟩

theorem RegisteredOnce_of_eq {P : SpecParams} (s s1 : RudpSocket (specEnv P))
    (hself : s1.self = s.self) (hd : s1.dispatcher_ = s.dispatcher_)
    (hid : s1.session_.local_id = s.session_.local_id)
    (hstate : s1.session_.state = SessionState.Closed ↔ s.session_.state = SessionState.Closed)
    (h : RegisteredOnce s) : RegisteredOnce s1 := by
  unfold RegisteredOnce at h ⊢
  rw [hself, hd, hid]
  by_cases hc : s.session_.state = SessionState.Closed
  · rw [if_pos hc] at h
    rw [if_pos (hstate.mpr hc)]
    exact h
  · rw [if_neg hc] at h
    rw [if_neg (fun h1 => hc (hstate.mp h1))]
    exact h

theorem RegisteredOnce_open {P : SpecParams} (s : RudpSocket (specEnv P)) (mode : Mode)
    (hclosed : IsOpen s = false) (h : RegisteredOnce s) :
    RegisteredOnce
      ({ s with
          dispatcher_ := (SpecDispatcher.add_socket s.dispatcher_ s.self).2
          sender_ := (SpecSender.next_sequence_number s.sender_).2
          session_ := SpecSession.open s.session_
            (SpecDispatcher.add_socket s.dispatcher_ s.self).1
            (SpecSender.next_sequence_number s.sender_).1 mode } : RudpSocket (specEnv P)) := by
  have hc : s.session_.state = SessionState.Closed := by
    simpa [IsOpen, SpecSession.is_open] using hclosed
  unfold RegisteredOnce at h ⊢
  rw [if_pos hc] at h
  simp only [SpecSession.open, SpecDispatcher.add_socket, SpecDispatcher.lookup,
    List.filter_cons, decide_True, if_true, List.lookup_cons, beq_self_eq_true, h.1]
  simp

theorem RegisteredOnce_Close {P : SpecParams} (s : RudpSocket (specEnv P))
    (h : RegisteredOnce s) :
    RegisteredOnce (Close s) ∧ (Close s).session_.state = SessionState.Closed ∧
      (Close s).session_.local_id = s.session_.local_id ∧ (Close s).self = s.self := by
  refine ⟨?_, rfl, rfl, rfl⟩
  unfold RegisteredOnce at h ⊢
  have hstate : (Close s).session_.state = SessionState.Closed := rfl
  rw [if_pos hstate]
  by_cases hc : s.session_.state = SessionState.Closed
  · rw [if_pos hc] at h
    have hd : (Close s).dispatcher_ = s.dispatcher_ := by
      simp [Close, SpecSession.is_open, hc]
    rw [hd]
    exact h
  · rw [if_neg hc] at h
    have hd : (Close s).dispatcher_ =
        SpecDispatcher.remove_socket s.dispatcher_ s.session_.local_id := by
      simp [Close, SpecSession.is_open, hc]
    rw [hd]
    exact ⟨filter_remove_socket _ _ _ h.1, lookup_remove_socket _ _⟩

theorem step_RegisteredOnce {P : SpecParams} (s s1 : RudpSocket (specEnv P)) (op : SocketOp)
    (hguard : (op.isConnect && IsOpen s) = false)
    (hstep : step s op = some s1) (h : RegisteredOnce s) : RegisteredOnce s1 := by
  cases op with
  | start_connect remote =>
    simp only [step, Option.some.injEq] at hstep
    subst hstep
    have hclosed : IsOpen s = false := by simpa [SocketOp.isConnect] using hguard
    exact RegisteredOnce_of_eq _ _ rfl rfl rfl Iff.rfl
      (RegisteredOnce_open s Mode.kClient hclosed h)
  | start_connect_server =>
    simp only [step, StartConnectServer] at hstep
    split_ifs at hstep
    simp only [Option.some.injEq] at hstep
    subst hstep
    have hclosed : IsOpen s = false := by simpa [SocketOp.isConnect] using hguard
    exact RegisteredOnce_of_eq _ _ rfl rfl rfl Iff.rfl
      (RegisteredOnce_open s Mode.kServer hclosed h)
  | start_write data =>
    simp only [step, Option.some.injEq] at hstep
    subst hstep
    refine RegisteredOnce_of_eq s _ ?_ ?_ ?_ ?_ h
    all_goals
      unfold StartWrite ProcessWrite
      dsimp only
      split_ifs <;> rfl
  | start_read data transfer_at_least =>
    simp only [step, Option.some.injEq] at hstep
    subst hstep
    refine RegisteredOnce_of_eq s _ ?_ ?_ ?_ ?_ h
    all_goals
      unfold StartRead ProcessRead
      dsimp only
      split_ifs <;> rfl
  | handle_receive data endpoint =>
    simp only [step, Option.some.injEq] at hstep
    subst hstep
    unfold HandleReceiveFrom
    split
    · refine RegisteredOnce_of_eq s _ ?_ ?_ ?_ ?_ h
      all_goals
        unfold HandleData ProcessRead
        dsimp only
        split_ifs <;> rfl
    · split
      · refine RegisteredOnce_of_eq s _ ?_ ?_ ?_ ?_ h
        all_goals
          unfold HandleAck
          split_ifs <;> rfl
      · split
        · rename_i packet _
          have hh := handle_handshake_state P.validHandshake s.session_ s.peer_ packet
          refine RegisteredOnce_of_eq s _ ?_ ?_ ?_ ?_ h
          · unfold HandleHandshake
            dsimp only
            split_ifs <;> rfl
          · unfold HandleHandshake
            dsimp only
            split_ifs <;> rfl
          · unfold HandleHandshake
            dsimp only
            split_ifs <;> exact hh.1
          · unfold HandleHandshake
            dsimp only
            split_ifs <;> exact hh.2
        · exact h
  | close =>
    simp only [step, Option.some.injEq] at hstep
    subst hstep
    exact (RegisteredOnce_Close s h).1

theorem run_RegisteredOnce {P : SpecParams} (ops : List SocketOp)
    (s s1 : RudpSocket (specEnv P))
    (hguard : connectsWhenClosed s ops = true)
    (hrun : run s ops = some s1) (h : RegisteredOnce s) : RegisteredOnce s1 := by
  induction ops generalizing s with
  | nil =>
    simp only [run, Option.some.injEq] at hrun
    subst hrun
    exact h
  | cons op ops ih =>
    simp only [run] at hrun
    simp only [connectsWhenClosed, Bool.and_eq_true, Bool.not_eq_true'] at hguard
    cases hs : step s op with
    | none => rw [hs] at hrun; simp at hrun
    | some s2 =>
      rw [hs] at hrun
      have hg2 := hguard.2
      rw [hs] at hg2
      exact ih s2 hg2 hrun (step_RegisteredOnce s s2 op hguard.1 hs h)

end Dispatcher

/-- C9, as stated, fails: `start_connect` on a socket that is already
connected registers the socket a second time, under a second id; the socket is
then open and registered twice, and `close()` erases only the newer mapping,
leaving the older one in the table. -/
theorem reconnect_registers_twice :
    ∃ s : RudpSocket sampleEnv,
      run sampleSocket reconnectRun = some s ∧
      IsOpen s = true ∧
      SpecDispatcher.registrations s.dispatcher_ s.self = 2 ∧
      SpecDispatcher.registrations s.dispatcher_ s.self ≠ 1 ∧
      Id s = 2 ∧
      SpecDispatcher.registrations (Close s).dispatcher_ s.self = 1 ∧
      SpecDispatcher.lookup (Close s).dispatcher_ 1 = some s.self :=
  ⟨_, rfl, rfl, rfl, by decide, rfl, rfl, rfl⟩

/-- C9, amended. Over the session and dispatcher of the design document,
starting from any socket that is not open, that the table does not map to and
whose id has no entry in the table (a freshly constructed socket on a table
without an entry for the reserved id 0, its peer preset for the responder's
`start_connect()` or not): after any calls in which `start_connect`, in either
form, is only issued while the socket is not open, an open socket is
registered exactly once and the table maps its id to it; and after `close()`
the table has no mapping under the id the socket had and no mapping to the
socket. -/
theorem registered_once_when_connect_starts_closed (P : SpecParams)
    (s0 s : RudpSocket (specEnv P)) (ops : List SocketOp)
    (hclosed : IsOpen s0 = false)
    (hself : SpecDispatcher.registrations s0.dispatcher_ s0.self = 0)
    (hid : SpecDispatcher.lookup s0.dispatcher_ (Id s0) = none)
    (hguard : connectsWhenClosed s0 ops = true)
    (hrun : run s0 ops = some s) :
    (IsOpen s = true →
      SpecDispatcher.registrations s.dispatcher_ s.self = 1 ∧
      SpecDispatcher.lookup s.dispatcher_ (Id s) = some s.self) ∧
    SpecDispatcher.lookup (Close s).dispatcher_ (Id s) = none ∧
    SpecDispatcher.registrations (Close s).dispatcher_ s.self = 0 := by
  have hinit : RegisteredOnce s0 := by
    unfold RegisteredOnce
    have hc : s0.session_.state = SessionState.Closed := by
      simpa [IsOpen, SpecSession.is_open] using hclosed
    rw [if_pos hc]
    refine ⟨?_, hid⟩
    have hlen : (List.filter (fun entry : Nat × Nat => decide (entry.2 = s0.self))
        s0.dispatcher_).length = 0 := hself
    exact List.length_eq_zero.mp hlen
  have hend := run_RegisteredOnce ops _ s hguard hrun hinit
  have hclose := RegisteredOnce_Close s hend
  refine ⟨?_, ?_, ?_⟩
  · intro hopen
    have hc : ¬ s.session_.state = SessionState.Closed := by
      simpa [IsOpen, SpecSession.is_open] using hopen
    unfold RegisteredOnce at hend
    rw [if_neg hc] at hend
    refine ⟨?_, hend.2⟩
    unfold SpecDispatcher.registrations
    rw [hend.1]
    rfl
  · have h1 := hclose.1
    unfold RegisteredOnce at h1
    rw [if_pos hclose.2.1, hclose.2.2.1] at h1
    exact h1.2
  · have h1 := hclose.1
    unfold RegisteredOnce at h1
    rw [if_pos hclose.2.1, hclose.2.2.2] at h1
    unfold SpecDispatcher.registrations
    rw [h1.1]
    rfl

/-- C9 amended, at two concrete runs.  The responder: a socket with a preset
peer, on a table that already routes id 5 to another socket, is opened with
`start_connect()`, receives the handshake, and writes; it ends connected
under the fresh id 6, registered once, and `close()` removes that mapping and
leaves the other socket's.  The initiator: connect, handshake, close, connect
anew, handshake; the socket ends open under id 1, registered once. -/
theorem registered_once_when_connect_starts_closed_witness :
    (∃ s : RudpSocket sampleEnv,
      run presetSocket responderRun = some s ∧
      IsOpen presetSocket = false ∧
      s.session_ = ⟨6, Mode.kServer, 100, SessionState.Connected⟩ ∧
      s.dispatcher_ = [(6, 1), (5, 9)] ∧
      (Close s).dispatcher_ = [(5, 9)] ∧
      (IsOpen s = true →
        SpecDispatcher.registrations s.dispatcher_ s.self = 1 ∧
        SpecDispatcher.lookup s.dispatcher_ (Id s) = some s.self) ∧
      SpecDispatcher.lookup (Close s).dispatcher_ (Id s) = none ∧
      SpecDispatcher.registrations (Close s).dispatcher_ s.self = 0) ∧
    (∃ s : RudpSocket sampleEnv,
      run (RudpSocket.create sampleEnv 1 []) closeThenConnectRun = some s ∧
      IsOpen s = true ∧
      s.dispatcher_ = [(1, 1)] ∧
      (IsOpen s = true →
        SpecDispatcher.registrations s.dispatcher_ s.self = 1 ∧
        SpecDispatcher.lookup s.dispatcher_ (Id s) = some s.self) ∧
      SpecDispatcher.lookup (Close s).dispatcher_ (Id s) = none ∧
      SpecDispatcher.registrations (Close s).dispatcher_ s.self = 0) :=
  ⟨⟨_, rfl, rfl, rfl, rfl, rfl,
      registered_once_when_connect_starts_closed (sampleParams 65536 8) presetSocket _
        responderRun rfl rfl rfl rfl rfl⟩,
    ⟨_, rfl, rfl, rfl,
      registered_once_when_connect_starts_closed (sampleParams 65536 8)
        (RudpSocket.create sampleEnv 1 []) _ closeThenConnectRun rfl rfl rfl rfl rfl⟩⟩

/-! ## C10: the sender across a close -/

/-- C10, as stated, fails: a write of five bytes completes on a connected
socket with `SEND_CAP = 8`; after `close()` the five bytes are still in the
sender's window and its free space is 3, not 8. -/
theorem close_keeps_sender_window :
    (StartWrite connectedSocket [1, 2, 3, 4, 5]).waiting_write_ = 1 ∧
    (Close (StartWrite connectedSocket [1, 2, 3, 4, 5])).sender_.window = [1, 2, 3, 4, 5] ∧
    (Close (StartWrite connectedSocket [1, 2, 3, 4, 5])).sender_.SEND_CAP = 8 ∧
    SpecSender.free_space (Close (StartWrite connectedSocket [1, 2, 3, 4, 5])).sender_ = 3 ∧
    sampleEnv.senderGetFreeSpace (Close (StartWrite connectedSocket [1, 2, 3, 4, 5])).sender_ ≠
      (Close (StartWrite connectedSocket [1, 2, 3, 4, 5])).sender_.SEND_CAP := by
  decide

/-- C10, amended. `close()` makes no call on the sender: the sender after the
close is the sender before it, and so is its free space, whatever a write had
pushed into it. -/
theorem close_leaves_sender (E : Collaborators) (s : RudpSocket E) :
    (Close s).sender_ = s.sender_ ∧
    E.senderGetFreeSpace (Close s).sender_ = E.senderGetFreeSpace s.sender_ :=
  ⟨rfl, rfl⟩

/-! ## C11: the initiator's connect -/

/-- C11. `start_connect(r)` stores `r` as the peer's endpoint and 0 as the
peer's id, makes one `AddSocket` call on the dispatcher with the socket
itself, takes one sequence number from the sender, and opens the session with
the id that `AddSocket` returned, that sequence number and the client mode.
Afterwards `remote_endpoint()` is `r`, `remote_id()` is 0, and, the session
reporting the id it was opened with, `id()` is the id just assigned. -/
theorem start_connect_opens_client_session (E : Collaborators) (s : RudpSocket E)
    (r : Endpoint)
    (hid : ∀ (x : E.Session) (id seq : Nat) (mode : Mode),
      E.sessionId (E.sessionOpen x id seq mode) = id) :
    (StartConnect s r).peer_ = ⟨r, 0⟩ ∧
    (StartConnect s r).dispatcher_ = (E.dispatcherAddSocket s.dispatcher_ s.self).2 ∧
    (StartConnect s r).sender_ = (E.senderGetNextPacketSequenceNumber s.sender_).2 ∧
    (StartConnect s r).session_ =
      E.sessionOpen s.session_ (E.dispatcherAddSocket s.dispatcher_ s.self).1
        (E.senderGetNextPacketSequenceNumber s.sender_).1 Mode.kClient ∧
    RemoteEndpoint (StartConnect s r) = r ∧
    RemoteId (StartConnect s r) = 0 ∧
    Id (StartConnect s r) = (E.dispatcherAddSocket s.dispatcher_ s.self).1 :=
  ⟨rfl, rfl, rfl, rfl, rfl, rfl, hid _ _ _ _⟩

/-- C11, on the sample socket: the table gains the one mapping `1 -> socket`,
the session is an Opening client session under id 1 with the sender's seed as
its sequence number. -/
theorem start_connect_opens_client_session_witness :
    (StartConnect sampleSocket ⟨10, 5000⟩).dispatcher_ = [(1, 1)] ∧
    SpecDispatcher.registrations (StartConnect sampleSocket ⟨10, 5000⟩).dispatcher_ 1 = 1 ∧
    (StartConnect sampleSocket ⟨10, 5000⟩).session_ =
      ⟨1, Mode.kClient, 100, SessionState.Opening⟩ ∧
    RemoteEndpoint (StartConnect sampleSocket ⟨10, 5000⟩) = ⟨10, 5000⟩ ∧
    RemoteId (StartConnect sampleSocket ⟨10, 5000⟩) = 0 ∧
    Id (StartConnect sampleSocket ⟨10, 5000⟩) =
      (sampleEnv.dispatcherAddSocket sampleSocket.dispatcher_ sampleSocket.self).1 :=
  ⟨rfl, rfl, rfl,
    (start_connect_opens_client_session sampleEnv sampleSocket ⟨10, 5000⟩
      (fun _ _ _ _ => rfl)).2.2.2.2.1,
    (start_connect_opens_client_session sampleEnv sampleSocket ⟨10, 5000⟩
      (fun _ _ _ _ => rfl)).2.2.2.2.2.1,
    (start_connect_opens_client_session sampleEnv sampleSocket ⟨10, 5000⟩
      (fun _ _ _ _ => rfl)).2.2.2.2.2.2⟩

/-! ## C12: routing of a received datagram -/

/-- C12. `handle_receive` hands the datagram to the data handler if it decodes
as a data packet; to the ack handler if it does not decode as data and decodes
as an ack; to the handshake handler if it decodes as neither and decodes as a
handshake; and if no decoder accepts it the socket (session, sender, peer,
inbound buffer, the three slots and all else) is left as it was. -/
theorem handle_receive_routes_first_decode (E : Collaborators) (s : RudpSocket E)
    (data : List Byte) (endpoint : Endpoint) :
    (∀ packet, E.decodeData data = some packet →
      HandleReceiveFrom s data endpoint = HandleData s packet) ∧
    (∀ packet, E.decodeData data = none → E.decodeAck data = some packet →
      HandleReceiveFrom s data endpoint = HandleAck s packet) ∧
    (∀ packet, E.decodeData data = none → E.decodeAck data = none →
      E.decodeHandshake data = some packet →
      HandleReceiveFrom s data endpoint = HandleHandshake s packet) ∧
    (E.decodeData data = none → E.decodeAck data = none → E.decodeHandshake data = none →
      HandleReceiveFrom s data endpoint = s) := by
  refine ⟨?_, ?_, ?_, ?_⟩
  · intro packet h
    simp only [HandleReceiveFrom, h]
  · intro packet h1 h2
    simp only [HandleReceiveFrom, h1, h2]
  · intro packet h1 h2 h3
    simp only [HandleReceiveFrom, h1, h2, h3]
  · intro h1 h2 h3
    simp only [HandleReceiveFrom, h1, h2, h3]

/-- C12, on the connected sample socket: a datagram no decoder accepts leaves
the socket as it was. -/
theorem handle_receive_routes_first_decode_witness :
    sampleEnv.decodeData strayDatagram = none ∧
    sampleEnv.decodeAck strayDatagram = none ∧
    sampleEnv.decodeHandshake strayDatagram = none ∧
    HandleReceiveFrom connectedSocket strayDatagram ⟨10, 5000⟩ = connectedSocket :=
  ⟨rfl, rfl, rfl,
    (handle_receive_routes_first_decode sampleEnv connectedSocket strayDatagram
      ⟨10, 5000⟩).2.2.2 rfl rfl rfl⟩

/-! ## C13: one pass of `ProcessRead` -/

section ReadPass

variable {E : Collaborators}

theorem ProcessRead_eq_copy (s : RudpSocket E)
    (hr : 0 < buffer_size s.waiting_read_buffer_) (hk : 0 < s.read_buffer_.length) :
    ProcessRead s =
      if buffer_size (process_read_copy s).waiting_read_buffer_ = 0 ∨
          (process_read_copy s).waiting_read_bytes_transferred_ ≥
            (process_read_copy s).waiting_read_transfer_at_least_ then
        { process_read_copy s with
          waiting_read_ec_ := ErrorCode.success
          waiting_read_ := (process_read_copy s).waiting_read_ + 1 }
      else process_read_copy s := by
  have hz : ¬ buffer_size s.waiting_read_buffer_ = 0 := Nat.pos_iff_ne_zero.mp hr
  have he : ¬ s.read_buffer_.isEmpty = true := by
    cases hb : s.read_buffer_ with
    | nil => simp [hb] at hk
    | cons a l => simp
  unfold ProcessRead
  rw [if_neg hz, if_neg he]
  rfl

theorem process_read_copy_drained (s : RudpSocket E) :
    buffer_size (process_read_copy s).waiting_read_buffer_ = 0 ∨
      (process_read_copy s).read_buffer_ = [] := by
  simp only [process_read_copy, readCount, buffer_size, MutableBuffer.advance,
    MutableBuffer.store]
  by_cases hle : s.read_buffer_.length ≤ s.waiting_read_buffer_.size
  · right
    rw [List.drop_eq_nil_iff]
    omega
  · left
    omega

theorem process_read_loop_drained (fuel : Nat) (s : RudpSocket E)
    (h : buffer_size s.waiting_read_buffer_ = 0 ∨ s.read_buffer_ = []) :
    process_read_loop fuel s = s := by
  cases fuel with
  | zero => rfl
  | succ n =>
    have hc : ¬ (buffer_size s.waiting_read_buffer_ ≠ 0 ∧ s.read_buffer_ ≠ []) := by
      rintro ⟨h1, h2⟩
      rcases h with h | h
      · exact h1 h
      · exact h2 h
    simp only [process_read_loop, if_neg hc]

theorem store_advance_filled (b : MutableBuffer) (bytes : List Byte)
    (hpos : b.pos + bytes.length ≤ b.mem.length) (hsize : bytes.length ≤ b.size) :
    ((b.store bytes).advance bytes.length).filled bytes.length = bytes := by
  simp only [MutableBuffer.filled, MutableBuffer.advance, MutableBuffer.store]
  have hmin : min bytes.length b.size = bytes.length := Nat.min_eq_left hsize
  rw [hmin, Nat.add_sub_cancel, List.append_assoc]
  have hlen : (List.take b.pos b.mem).length = b.pos := by
    rw [List.length_take]
    omega
  rw [List.drop_append_of_le_length (by omega), List.drop_of_length_le (by omega),
    List.nil_append, List.take_append_of_le_length (Nat.le_refl _), List.take_length]

end ReadPass

/-- The effect of one `ProcessRead` on a state with a non-empty pending region
and a non-empty inbound buffer, and its agreement with the specified loop. -/
theorem ProcessRead_pass (E : Collaborators) (s : RudpSocket E)
    (hr : 0 < buffer_size s.waiting_read_buffer_) (hk : 0 < s.read_buffer_.length)
    (hwf : s.waiting_read_buffer_.pos + s.waiting_read_buffer_.size ≤
      s.waiting_read_buffer_.mem.length) :
    (ProcessRead s).waiting_read_buffer_.mem =
      s.waiting_read_buffer_.mem.take s.waiting_read_buffer_.pos ++
        s.read_buffer_.take (readCount s) ++
        s.waiting_read_buffer_.mem.drop (s.waiting_read_buffer_.pos + readCount s) ∧
    (ProcessRead s).waiting_read_buffer_.pos = s.waiting_read_buffer_.pos + readCount s ∧
    buffer_size (ProcessRead s).waiting_read_buffer_ =
      buffer_size s.waiting_read_buffer_ - readCount s ∧
    (ProcessRead s).waiting_read_buffer_.filled (readCount s) =
      s.read_buffer_.take (readCount s) ∧
    (ProcessRead s).read_buffer_ = s.read_buffer_.drop (readCount s) ∧
    (ProcessRead s).waiting_read_bytes_transferred_ =
      s.waiting_read_bytes_transferred_ + readCount s ∧
    (buffer_size (ProcessRead s).waiting_read_buffer_ = 0 ∨ (ProcessRead s).read_buffer_ = []) ∧
    ∀ fuel, 0 < fuel → process_read_spec fuel s = ProcessRead s := by
  have hstep := ProcessRead_eq_copy s hr hk
  have hcount : (List.take (readCount s) s.read_buffer_).length = readCount s := by
    rw [List.length_take]
    simp only [readCount]
    omega
  have hcountle : readCount s ≤ buffer_size s.waiting_read_buffer_ := by
    simp only [readCount]
    omega
  have hbuf : (ProcessRead s).waiting_read_buffer_ =
      (process_read_copy s).waiting_read_buffer_ := by
    rw [hstep]
    split_ifs <;> rfl
  have hrb : (ProcessRead s).read_buffer_ = (process_read_copy s).read_buffer_ := by
    rw [hstep]
    split_ifs <;> rfl
  have hbt : (ProcessRead s).waiting_read_bytes_transferred_ =
      (process_read_copy s).waiting_read_bytes_transferred_ := by
    rw [hstep]
    split_ifs <;> rfl
  have hmin : min (readCount s) s.waiting_read_buffer_.size = readCount s :=
    Nat.min_eq_left hcountle
  refine ⟨?_, ?_, ?_, ?_, ?_, ?_, ?_, ?_⟩
  · rw [hbuf]
    simp only [process_read_copy, MutableBuffer.advance, MutableBuffer.store, hcount]
  · rw [hbuf]
    simp only [process_read_copy, MutableBuffer.advance, MutableBuffer.store, hmin]
  · rw [hbuf]
    simp only [process_read_copy, MutableBuffer.advance, MutableBuffer.store, buffer_size, hmin]
  · rw [hbuf]
    have h := store_advance_filled s.waiting_read_buffer_
      (List.take (readCount s) s.read_buffer_)
      (by rw [hcount]; simp only [buffer_size] at hcountle; omega)
      (by rw [hcount]; exact hcountle)
    rw [hcount] at h
    exact h
  · rw [hrb]
    rfl
  · rw [hbt]
    rfl
  · rw [hbuf, hrb]
    exact process_read_copy_drained s
  · intro fuel hfuel
    obtain ⟨n, rfl⟩ : ∃ n, fuel = n + 1 := ⟨fuel - 1, by omega⟩
    have hc : buffer_size s.waiting_read_buffer_ ≠ 0 ∧ s.read_buffer_ ≠ [] := by
      refine ⟨Nat.pos_iff_ne_zero.mp hr, ?_⟩
      intro hnil
      rw [hnil] at hk
      simp at hk
    have hloop : process_read_loop (n + 1) s = process_read_copy s := by
      simp only [process_read_loop, if_pos hc]
      exact process_read_loop_drained n _ (process_read_copy_drained s)
    rw [hstep]
    simp only [process_read_spec, hloop]

/-- C13. On a state whose pending read region has `r > 0` bytes left (inside
the caller's block) and whose inbound buffer holds `k > 0` bytes, with
`n = min(k, r)`: `ProcessRead` writes the first `n` inbound bytes, in order,
into the block at the cursor and nowhere else, moves the cursor by `n`,
removes those `n` bytes from the front of the inbound buffer and adds `n` to
`bytes_transferred`; afterwards the region is used up or the inbound buffer is
empty, and the result is that of the specified while-loop for any positive
number of rounds. -/
theorem process_read_single_pass (E : Collaborators) (s : RudpSocket E)
    (hr : 0 < buffer_size s.waiting_read_buffer_) (hk : 0 < s.read_buffer_.length)
    (hwf : s.waiting_read_buffer_.pos + s.waiting_read_buffer_.size ≤
      s.waiting_read_buffer_.mem.length) :
    (ProcessRead s).waiting_read_buffer_.mem =
      s.waiting_read_buffer_.mem.take s.waiting_read_buffer_.pos ++
        s.read_buffer_.take (readCount s) ++
        s.waiting_read_buffer_.mem.drop (s.waiting_read_buffer_.pos + readCount s) ∧
    (ProcessRead s).waiting_read_buffer_.pos = s.waiting_read_buffer_.pos + readCount s ∧
    buffer_size (ProcessRead s).waiting_read_buffer_ =
      buffer_size s.waiting_read_buffer_ - readCount s ∧
    (ProcessRead s).waiting_read_buffer_.filled (readCount s) =
      s.read_buffer_.take (readCount s) ∧
    (ProcessRead s).read_buffer_ = s.read_buffer_.drop (readCount s) ∧
    (ProcessRead s).waiting_read_bytes_transferred_ =
      s.waiting_read_bytes_transferred_ + readCount s ∧
    (buffer_size (ProcessRead s).waiting_read_buffer_ = 0 ∨ (ProcessRead s).read_buffer_ = []) ∧
    ∀ fuel, 0 < fuel → process_read_spec fuel s = ProcessRead s :=
  ProcessRead_pass E s hr hk hwf

/-- C13, at the scenario of the design document: three buffered bytes, a
region of ten bytes, minimum one.  The read completes with three bytes
transferred. -/
theorem process_read_single_pass_witness :
    StartRead threeBuffered (MutableBuffer.ofBlock tenZeros) 1 = ProcessRead readInstalled ∧
    readCount readInstalled = 3 ∧
    (ProcessRead readInstalled).waiting_read_bytes_transferred_ = 3 ∧
    (ProcessRead readInstalled).waiting_read_ = threeBuffered.waiting_read_ + 1 ∧
    (ProcessRead readInstalled).waiting_read_ec_ = ErrorCode.success ∧
    (ProcessRead readInstalled).waiting_read_buffer_.mem =
      [97, 98, 99, 0, 0, 0, 0, 0, 0, 0] ∧
    (ProcessRead readInstalled).read_buffer_ = [] ∧
    (ProcessRead readInstalled).waiting_read_buffer_.filled (readCount readInstalled) =
      readInstalled.read_buffer_.take (readCount readInstalled) ∧
    process_read_spec 1 readInstalled = ProcessRead readInstalled :=
  ⟨rfl, rfl, rfl, rfl, rfl, rfl, rfl,
    (process_read_single_pass sampleEnv readInstalled (by decide) (by decide)
      (by decide)).2.2.2.1,
    (process_read_single_pass sampleEnv readInstalled (by decide) (by decide)
      (by decide)).2.2.2.2.2.2.2 1 (by decide)⟩

/-! ## C14: one pass of `ProcessWrite` -/

section WritePass

variable {E : Collaborators}

theorem ProcessWrite_blocked (s : RudpSocket E)
    (hfree : E.senderGetFreeSpace s.sender_ = 0) : ProcessWrite s = s := by
  unfold ProcessWrite
  split_ifs <;> rfl

theorem ProcessWrite_eq_copy (s : RudpSocket E)
    (hbuf : s.waiting_write_buffer_.length ≠ 0)
    (hfree : E.senderGetFreeSpace s.sender_ ≠ 0) :
    ProcessWrite s =
      if (process_write_copy s).waiting_write_buffer_.length = 0 then
        { process_write_copy s with
          waiting_write_ec_ := ErrorCode.success
          waiting_write_ := (process_write_copy s).waiting_write_ + 1 }
      else process_write_copy s := by
  unfold ProcessWrite
  rw [if_neg hbuf, if_neg hfree]
  rfl

theorem process_write_loop_done (fuel : Nat) (s : RudpSocket E)
    (h : s.waiting_write_buffer_.length = 0 ∨ E.senderGetFreeSpace s.sender_ = 0) :
    process_write_loop fuel s = s := by
  cases fuel with
  | zero => rfl
  | succ n =>
    have hc : ¬ (s.waiting_write_buffer_.length ≠ 0 ∧ 0 < E.senderGetFreeSpace s.sender_) := by
      rintro ⟨h1, h2⟩
      rcases h with h | h
      · exact h1 h
      · omega
    simp only [process_write_loop, if_neg hc]

theorem StartWrite_eq_ProcessWrite (s : RudpSocket E) (X : List Byte) (hX : X ≠ []) :
    StartWrite s X = ProcessWrite (writeInstalled s X) := by
  have hlen : ¬ X.length = 0 := fun h => hX (List.length_eq_zero.mp h)
  unfold StartWrite
  rw [if_neg hlen]
  rfl

end WritePass

/-- C14. Let the sender's `add_data` return `min(len, free_space())` for the
region it is offered, its free space shrinking by as much.  Then for every
non-empty region `X`, `start_write(X)` offers `X` to the sender in one
`add_data` call (none if there is no free space), leaves
`bytes_transferred = min(|X|, free_space())` and the rest of `X` pending, and
cancels the write timer with a clear error code exactly if `|X|` fits the
free space; afterwards the pending region is empty or the sender has no free
space, and the result is that of the specified while-loop for any positive
number of rounds. -/
theorem start_write_single_pass (E : Collaborators) (s : RudpSocket E) (X : List Byte)
    (hadd : ∀ (x : E.Sender) (Y : List Byte),
      (E.senderAddData x Y).1 = min Y.length (E.senderGetFreeSpace x))
    (hfree : ∀ (x : E.Sender) (Y : List Byte),
      E.senderGetFreeSpace (E.senderAddData x Y).2 =
        E.senderGetFreeSpace x - (E.senderAddData x Y).1)
    (hX : X ≠ []) :
    (StartWrite s X).sender_ =
      (if E.senderGetFreeSpace s.sender_ = 0 then s.sender_
       else (E.senderAddData s.sender_ X).2) ∧
    (StartWrite s X).waiting_write_bytes_transferred_ = writeCount s X ∧
    (StartWrite s X).waiting_write_buffer_ = X.drop (writeCount s X) ∧
    (X.length ≤ E.senderGetFreeSpace s.sender_ →
      (StartWrite s X).waiting_write_ = s.waiting_write_ + 1 ∧
      (StartWrite s X).waiting_write_ec_ = ErrorCode.success) ∧
    (E.senderGetFreeSpace s.sender_ < X.length →
      (StartWrite s X).waiting_write_ = s.waiting_write_ ∧
      (StartWrite s X).waiting_write_ec_ = s.waiting_write_ec_) ∧
    ((StartWrite s X).waiting_write_buffer_ = [] ∨
      E.senderGetFreeSpace (StartWrite s X).sender_ = 0) ∧
    ∀ fuel, 0 < fuel →
      process_write_spec fuel (writeInstalled s X) = ProcessWrite (writeInstalled s X) := by
  have hlen : 0 < X.length := List.length_pos.mpr hX
  have hbuf : (writeInstalled s X).waiting_write_buffer_.length ≠ 0 := by
    simp only [writeInstalled]
    omega
  rw [StartWrite_eq_ProcessWrite s X hX]
  by_cases hf : E.senderGetFreeSpace s.sender_ = 0
  · have hblocked : ProcessWrite (writeInstalled s X) = writeInstalled s X :=
      ProcessWrite_blocked _ hf
    rw [hblocked, if_pos hf]
    have hcount : writeCount s X = 0 := by
      simp only [writeCount, hf]
      omega
    refine ⟨rfl, ?_, ?_, ?_, ?_, Or.inr hf, ?_⟩
    · rw [hcount]; rfl
    · rw [hcount]; rfl
    · intro h; omega
    · intro _; exact ⟨rfl, rfl⟩
    · intro fuel _
      have hloop : process_write_loop fuel (writeInstalled s X) = writeInstalled s X :=
        process_write_loop_done fuel _ (Or.inr hf)
      simp only [process_write_spec, if_neg hbuf, hloop]
  · have hstep := ProcessWrite_eq_copy (writeInstalled s X) hbuf hf
    have hc : (E.senderAddData s.sender_ X).1 = writeCount s X := hadd _ _
    have hcopybuf : (process_write_copy (writeInstalled s X)).waiting_write_buffer_ =
        X.drop (writeCount s X) := by
      simp only [process_write_copy, writeInstalled, hc]
    have hcopylen : (process_write_copy (writeInstalled s X)).waiting_write_buffer_.length = 0 ↔
        X.length ≤ E.senderGetFreeSpace s.sender_ := by
      rw [hcopybuf, List.length_drop]
      simp only [writeCount]
      omega
    have hcopyfree :
        E.senderGetFreeSpace (process_write_copy (writeInstalled s X)).sender_ =
          E.senderGetFreeSpace s.sender_ - writeCount s X := by
      simp only [process_write_copy, writeInstalled]
      rw [hfree, hc]
    rw [hstep, if_neg hf]
    by_cases hfit : X.length ≤ E.senderGetFreeSpace s.sender_
    · have hz := hcopylen.mpr hfit
      rw [if_pos hz]
      refine ⟨rfl, ?_, hcopybuf, fun _ => ⟨rfl, rfl⟩, fun h => by omega, ?_, ?_⟩
      · simp only [process_write_copy, writeInstalled, hc, Nat.zero_add]
      · left
        exact List.length_eq_zero.mp hz
      · intro fuel hfuel
        obtain ⟨n, rfl⟩ : ∃ n, fuel = n + 1 := ⟨fuel - 1, by omega⟩
        have hloop : process_write_loop (n + 1) (writeInstalled s X) =
            process_write_copy (writeInstalled s X) := by
          have hpos : 0 < E.senderGetFreeSpace (writeInstalled s X).sender_ :=
            Nat.pos_of_ne_zero hf
          rw [process_write_loop, if_pos (And.intro hbuf hpos)]
          exact process_write_loop_done n _ (Or.inl hz)
        simp only [process_write_spec, if_neg hbuf, hloop, if_pos hz]
    · have hz : ¬ (process_write_copy (writeInstalled s X)).waiting_write_buffer_.length = 0 :=
        fun h => hfit (hcopylen.mp h)
      have hfull : E.senderGetFreeSpace (process_write_copy (writeInstalled s X)).sender_ = 0 := by
        rw [hcopyfree]
        simp only [writeCount]
        omega
      rw [if_neg hz]
      refine ⟨rfl, ?_, hcopybuf, fun h => absurd h hfit, fun _ => ⟨rfl, rfl⟩, Or.inr hfull, ?_⟩
      · simp only [process_write_copy, writeInstalled, hc, Nat.zero_add]
      · intro fuel hfuel
        obtain ⟨n, rfl⟩ : ∃ n, fuel = n + 1 := ⟨fuel - 1, by omega⟩
        have hloop : process_write_loop (n + 1) (writeInstalled s X) =
            process_write_copy (writeInstalled s X) := by
          have hpos : 0 < E.senderGetFreeSpace (writeInstalled s X).sender_ :=
            Nat.pos_of_ne_zero hf
          rw [process_write_loop, if_pos (And.intro hbuf hpos)]
          exact process_write_loop_done n _ (Or.inr hfull)
        simp only [process_write_spec, if_neg hbuf, hloop, if_neg hz]

/-- The sender of the design document meets the two assumptions of C14. -/
theorem SpecSender_add_data_count (x : SpecSender) (Y : List Byte) :
    (SpecSender.add_data x Y).1 = min Y.length (SpecSender.free_space x) ∧
    SpecSender.free_space (SpecSender.add_data x Y).2 =
      SpecSender.free_space x - (SpecSender.add_data x Y).1 := by
  refine ⟨rfl, ?_⟩
  simp only [SpecSender.add_data, SpecSender.free_space, List.length_append, List.length_take]
  omega

/-- C14, on a sender with `SEND_CAP = 8` that already holds five bytes: a
write of four bytes gets three of them absorbed, in order, and stays pending
with the fourth. -/
theorem start_write_single_pass_witness :
    SpecSender.free_space fiveInWindow.sender_ = 3 ∧
    (StartWrite fiveInWindow [6, 7, 8, 9]).sender_.window = [1, 2, 3, 4, 5, 6, 7, 8] ∧
    (StartWrite fiveInWindow [6, 7, 8, 9]).waiting_write_bytes_transferred_ = 3 ∧
    (StartWrite fiveInWindow [6, 7, 8, 9]).waiting_write_buffer_ = [9] ∧
    (StartWrite fiveInWindow [6, 7, 8, 9]).waiting_write_ = fiveInWindow.waiting_write_ ∧
    ((StartWrite fiveInWindow [6, 7, 8, 9]).waiting_write_buffer_ = [] ∨
      sampleEnv.senderGetFreeSpace (StartWrite fiveInWindow [6, 7, 8, 9]).sender_ = 0) ∧
    process_write_spec 1 (writeInstalled fiveInWindow [6, 7, 8, 9]) =
      ProcessWrite (writeInstalled fiveInWindow [6, 7, 8, 9]) :=
  ⟨rfl, rfl, rfl, rfl, rfl,
    (start_write_single_pass sampleEnv fiveInWindow [6, 7, 8, 9]
      (fun x Y => (SpecSender_add_data_count x Y).1)
      (fun x Y => (SpecSender_add_data_count x Y).2) (by decide)).2.2.2.2.2.1,
    (start_write_single_pass sampleEnv fiveInWindow [6, 7, 8, 9]
      (fun x Y => (SpecSender_add_data_count x Y).1)
      (fun x Y => (SpecSender_add_data_count x Y).2) (by decide)).2.2.2.2.2.2 1 (by decide)⟩

/-! ## C15: a received handshake -/

/-- C16. While the session is not Connected, a datagram that decodes as a data
packet, and one that decodes as an ack, leave the socket exactly as it was:
the inbound buffer, the sender, the three slots and their timers. -/
theorem data_and_ack_ignored_unless_connected (E : Collaborators) (s : RudpSocket E)
    (data : List Byte) (endpoint : Endpoint)
    (hstate : E.sessionIsConnected s.session_ = false) :
    (∀ packet, E.decodeData data = some packet → HandleReceiveFrom s data endpoint = s) ∧
    (∀ packet, E.decodeData data = none → E.decodeAck data = some packet →
      HandleReceiveFrom s data endpoint = s) := by
  have hnot : ¬ E.sessionIsConnected s.session_ = true := by
    rw [hstate]
    decide
  refine ⟨?_, ?_⟩
  · intro packet h
    simp only [HandleReceiveFrom, h, HandleData, if_neg hnot]
  · intro packet h1 h2
    simp only [HandleReceiveFrom, h1, h2, HandleAck, if_neg hnot]

/-- C16, on the sample socket in the Opening state and in the Closed state: a
data packet and an ack change nothing. -/
theorem data_and_ack_ignored_unless_connected_witness :
    sampleEnv.sessionIsConnected openingSocket.session_ = false ∧
    sampleEnv.decodeData [0, 97, 98] = some [97, 98] ∧
    HandleReceiveFrom openingSocket [0, 97, 98] ⟨10, 5000⟩ = openingSocket ∧
    sampleEnv.decodeData [1, 3] = none ∧
    sampleEnv.decodeAck [1, 3] = some 3 ∧
    HandleReceiveFrom sampleSocket [1, 3] ⟨10, 5000⟩ = sampleSocket :=
  ⟨rfl, rfl,
    (data_and_ack_ignored_unless_connected sampleEnv openingSocket [0, 97, 98] ⟨10, 5000⟩
      rfl).1 [97, 98] rfl,
    rfl, rfl,
    (data_and_ack_ignored_unless_connected sampleEnv sampleSocket [1, 3] ⟨10, 5000⟩
      rfl).2 3 rfl rfl⟩

/-! ## C17: cursor conservation -/

section Cursor

variable {E : Collaborators}

theorem ProcessRead_writeSlot (s : RudpSocket E) : writeSlot (ProcessRead s) = writeSlot s := by
  unfold ProcessRead
  dsimp only
  split_ifs <;> rfl

theorem HandleReceiveFrom_writeSlot (s : RudpSocket E) (data : List Byte)
    (endpoint : Endpoint) : writeSlot (HandleReceiveFrom s data endpoint) = writeSlot s := by
  have h := HandleReceiveFrom_write_slot s data endpoint
  simp only [writeSlot, h.1, h.2.1, h.2.2.1, h.2.2.2]

theorem step_writeSlot (s s1 : RudpSocket E) (op : SocketOp) (hop : op.endsWrite = false)
    (hstep : step s op = some s1) : writeSlot s1 = writeSlot s := by
  cases op with
  | start_connect remote =>
    simp only [step, Option.some.injEq] at hstep
    subst hstep
    rfl
  | start_connect_server =>
    simp only [step, StartConnectServer] at hstep
    split_ifs at hstep
    simp only [Option.some.injEq] at hstep
    subst hstep
    rfl
  | start_write data => simp [SocketOp.endsWrite] at hop
  | start_read data transfer_at_least =>
    simp only [step, Option.some.injEq] at hstep
    subst hstep
    unfold StartRead
    split_ifs
    · rfl
    · rw [ProcessRead_writeSlot]
      rfl
  | handle_receive data endpoint =>
    simp only [step, Option.some.injEq] at hstep
    subst hstep
    exact HandleReceiveFrom_writeSlot s data endpoint
  | close => simp [SocketOp.endsWrite] at hop

theorem run_writeSlot (ops : List SocketOp) (s s1 : RudpSocket E)
    (hops : ∀ op ∈ ops, op.endsWrite = false) (hrun : run s ops = some s1) :
    writeSlot s1 = writeSlot s := by
  induction ops generalizing s with
  | nil =>
    simp only [run, Option.some.injEq] at hrun
    subst hrun
    rfl
  | cons op ops ih =>
    simp only [run] at hrun
    cases hs : step s op with
    | none => rw [hs] at hrun; simp at hrun
    | some s2 =>
      rw [hs] at hrun
      rw [ih s2 (fun o ho => hops o (List.mem_cons_of_mem _ ho)) hrun]
      exact step_writeSlot s s2 op (hops op (List.mem_cons_self _ _)) hs

theorem ProcessRead_cursor (s : RudpSocket E) :
    (ProcessRead s).waiting_read_bytes_transferred_ +
        buffer_size (ProcessRead s).waiting_read_buffer_ =
      s.waiting_read_bytes_transferred_ + buffer_size s.waiting_read_buffer_ ∧
    s.waiting_read_bytes_transferred_ ≤ (ProcessRead s).waiting_read_bytes_transferred_ := by
  unfold ProcessRead
  simp only [buffer_size, MutableBuffer.advance, MutableBuffer.store]
  split_ifs <;> refine ⟨?_, ?_⟩ <;> dsimp only <;> omega

theorem step_read_counter_mono (s s1 : RudpSocket E) (op : SocketOp)
    (hop : op.endsRead = false) (hstep : step s op = some s1) :
    s.waiting_read_bytes_transferred_ ≤ s1.waiting_read_bytes_transferred_ := by
  refine step_preserves_read_view
    (fun t => s.waiting_read_bytes_transferred_ ≤ t.waiting_read_bytes_transferred_)
    ?_ ?_ s s1 op hop hstep (Nat.le_refl _)
  · intro a b hslot _ ha
    simp only [readSlot, Prod.mk.injEq] at hslot
    rw [hslot.2.2.2.2]
    exact ha
  · intro a payload ha
    have h2 := (ProcessRead_cursor
      ({ a with read_buffer_ := a.read_buffer_ ++ payload } : RudpSocket E)).2
    exact Nat.le_trans ha h2

theorem StartWrite_cursor (s : RudpSocket E) (X : List Byte) (hX : X ≠ [])
    (hle : ∀ (x : E.Sender) (Y : List Byte), (E.senderAddData x Y).1 ≤ Y.length) :
    (StartWrite s X).waiting_write_bytes_transferred_ +
      (StartWrite s X).waiting_write_buffer_.length = X.length := by
  rw [StartWrite_eq_ProcessWrite s X hX]
  have h := hle s.sender_ X
  unfold ProcessWrite
  dsimp only
  split_ifs <;> simp only [writeInstalled, List.length_drop] <;> omega

end Cursor

/-- C17, as stated, fails for a region of length zero: a `start_read` with an
empty region installs nothing, so the slot keeps the counter (3) and the rest
(7 bytes) of the read before it; a data packet then adds to that counter.
During the life of the read with `L = 0` the sum is 10 and the counter is 5. -/
theorem zero_length_read_keeps_old_cursor :
    buffer_size (MutableBuffer.ofBlock []) = 0 ∧
    emptyReadStarted.waiting_read_bytes_transferred_ = 3 ∧
    buffer_size emptyReadStarted.waiting_read_buffer_ = 7 ∧
    afterEmptyRead.waiting_read_bytes_transferred_ = 5 ∧
    buffer_size afterEmptyRead.waiting_read_buffer_ = 5 ∧
    afterEmptyRead.waiting_read_bytes_transferred_ +
      buffer_size afterEmptyRead.waiting_read_buffer_ ≠
        buffer_size (MutableBuffer.ofBlock []) ∧
    ¬ afterEmptyRead.waiting_read_bytes_transferred_ ≤
      buffer_size (MutableBuffer.ofBlock []) := by
  decide

/-- C17, amended. From a `start_read` with a non-empty region of length `L`,
after any calls that neither start another read nor close the socket, the read
slot has `bytes_transferred + remaining == L`, so `bytes_transferred <= L`,
and no such further call lowers `bytes_transferred`.  The same holds for the
write slot from a `start_write` with a non-empty region, over calls that
neither start another write nor close the socket, when `add_data` returns at
most the length it is offered. -/
theorem cursor_conserved_for_nonempty_region (E : Collaborators) (s0 s : RudpSocket E)
    (ops : List SocketOp) :
    (∀ (region : MutableBuffer) (transfer_at_least : Nat),
      0 < buffer_size region →
      (∀ op ∈ ops, op.endsRead = false) →
      run (StartRead s0 region transfer_at_least) ops = some s →
      s.waiting_read_bytes_transferred_ + buffer_size s.waiting_read_buffer_ =
        buffer_size region ∧
      s.waiting_read_bytes_transferred_ ≤ buffer_size region ∧
      ∀ (op : SocketOp) (s2 : RudpSocket E), op.endsRead = false → step s op = some s2 →
        s.waiting_read_bytes_transferred_ ≤ s2.waiting_read_bytes_transferred_) ∧
    (∀ X : List Byte,
      X ≠ [] →
      (∀ (x : E.Sender) (Y : List Byte), (E.senderAddData x Y).1 ≤ Y.length) →
      (∀ op ∈ ops, op.endsWrite = false) →
      run (StartWrite s0 X) ops = some s →
      s.waiting_write_bytes_transferred_ + s.waiting_write_buffer_.length = X.length ∧
      s.waiting_write_bytes_transferred_ ≤ X.length ∧
      ∀ (op : SocketOp) (s2 : RudpSocket E), op.endsWrite = false → step s op = some s2 →
        s.waiting_write_bytes_transferred_ ≤ s2.waiting_write_bytes_transferred_) := by
  refine ⟨?_, ?_⟩
  · intro region transfer_at_least hregion hops hrun
    have hstart : (StartRead s0 region transfer_at_least).waiting_read_bytes_transferred_ +
        buffer_size (StartRead s0 region transfer_at_least).waiting_read_buffer_ =
          buffer_size region := by
      unfold StartRead
      rw [if_neg (Nat.pos_iff_ne_zero.mp hregion), (ProcessRead_cursor _).1]
      simp
    have hend : s.waiting_read_bytes_transferred_ + buffer_size s.waiting_read_buffer_ =
        buffer_size region := by
      refine run_preserves_read_view
        (fun t => t.waiting_read_bytes_transferred_ + buffer_size t.waiting_read_buffer_ =
          buffer_size region) ?_ ?_ ops _ s hops hrun hstart
      · intro a b hslot _ ha
        simp only [readSlot, Prod.mk.injEq] at hslot
        rw [hslot.2.1, hslot.2.2.2.2]
        exact ha
      · intro a payload ha
        rw [(ProcessRead_cursor _).1]
        exact ha
    exact ⟨hend, by omega, fun op s2 hop hstep => step_read_counter_mono s s2 op hop hstep⟩
  · intro X hX hle hops hrun
    have hslot := run_writeSlot ops _ s hops hrun
    simp only [writeSlot, Prod.mk.injEq] at hslot
    have hstart := StartWrite_cursor s0 X hX hle
    have hend : s.waiting_write_bytes_transferred_ + s.waiting_write_buffer_.length =
        X.length := by
      rw [hslot.2.1, hslot.2.2.2]
      exact hstart
    refine ⟨hend, by omega, fun op s2 hop hstep => ?_⟩
    have h2 := step_writeSlot s s2 op hop hstep
    simp only [writeSlot, Prod.mk.injEq] at h2
    rw [h2.2.2.2]

/-- C17 amended, at two concrete runs: a read of up to ten bytes that has
taken three, and a write of sixteen bytes of which eight are absorbed. -/
theorem cursor_conserved_for_nonempty_region_witness :
    (∃ s : RudpSocket sampleEnv,
      run (StartRead connectedSocket (MutableBuffer.ofBlock tenZeros) 1) mixedOps = some s ∧
      s.waiting_read_bytes_transferred_ = 3 ∧
      s.waiting_read_bytes_transferred_ + buffer_size s.waiting_read_buffer_ =
        buffer_size (MutableBuffer.ofBlock tenZeros)) ∧
    (∃ s : RudpSocket sampleEnv,
      run (StartWrite connectedSocket sixteenBytes) afterWriteOps = some s ∧
      s.waiting_write_bytes_transferred_ = 8 ∧
      s.waiting_write_bytes_transferred_ + s.waiting_write_buffer_.length =
        sixteenBytes.length) :=
  ⟨⟨_, rfl, rfl,
      ((cursor_conserved_for_nonempty_region sampleEnv connectedSocket _ mixedOps).1
        (MutableBuffer.ofBlock tenZeros) 1 (by decide) (by decide) rfl).1⟩,
    ⟨_, rfl, rfl,
      ((cursor_conserved_for_nonempty_region sampleEnv connectedSocket _ afterWriteOps).2
        sixteenBytes (by decide) (fun x Y => by
          rw [(SpecSender_add_data_count x Y).1]
          exact Nat.min_le_left _ _) (by decide) rfl).1⟩⟩

/-! ## C18: reading after a close -/

/-- C18. `close()` leaves the inbound buffer and both pending regions as they
are.  So on a socket whose inbound buffer holds `k > 0` bytes when it is
closed, a later `start_read(region, min)` with a non-empty region (inside the
caller's block) at once moves the first `min(k, region.size())` of those bytes
into the region and reports that count, although the socket, its session
being closed, is no longer open. -/
theorem read_after_close_takes_buffered_bytes (E : Collaborators) (s : RudpSocket E)
    (region : MutableBuffer) (transfer_at_least : Nat)
    (hk : 0 < s.read_buffer_.length) (hregion : 0 < buffer_size region)
    (hwf : region.pos + region.size ≤ region.mem.length)
    (hclosed : E.sessionIsOpen (E.sessionClose s.session_) = false) :
    (Close s).read_buffer_ = s.read_buffer_ ∧
    (Close s).waiting_read_buffer_ = s.waiting_read_buffer_ ∧
    (Close s).waiting_write_buffer_ = s.waiting_write_buffer_ ∧
    IsOpen (Close s) = false ∧
    (StartRead (Close s) region transfer_at_least).waiting_read_bytes_transferred_ =
      min s.read_buffer_.length (buffer_size region) ∧
    (StartRead (Close s) region transfer_at_least).read_buffer_ =
      s.read_buffer_.drop (min s.read_buffer_.length (buffer_size region)) ∧
    (StartRead (Close s) region transfer_at_least).waiting_read_buffer_.filled
        (min s.read_buffer_.length (buffer_size region)) =
      s.read_buffer_.take (min s.read_buffer_.length (buffer_size region)) := by
  have hstart : StartRead (Close s) region transfer_at_least =
      ProcessRead (readInstalledOn (Close s) region transfer_at_least) := by
    unfold StartRead
    rw [if_neg (Nat.pos_iff_ne_zero.mp hregion)]
    rfl
  have hpass := ProcessRead_pass E (readInstalledOn (Close s) region transfer_at_least)
    hregion hk hwf
  have hcount : readCount (readInstalledOn (Close s) region transfer_at_least) =
      min s.read_buffer_.length (buffer_size region) := rfl
  rw [hcount] at hpass
  refine ⟨rfl, rfl, rfl, hclosed, ?_, ?_, ?_⟩
  · rw [hstart, hpass.2.2.2.2.2.1]
    exact Nat.zero_add _
  · rw [hstart, hpass.2.2.2.2.1]
    rfl
  · rw [hstart, hpass.2.2.2.1]
    rfl

/-- C18, on the sample socket: three bytes are buffered, the socket is closed,
and a read into a region of two bytes then takes the first two of them. -/
theorem read_after_close_takes_buffered_bytes_witness :
    threeBuffered.read_buffer_ = [97, 98, 99] ∧
    IsOpen threeBuffered = true ∧
    IsOpen (Close threeBuffered) = false ∧
    (StartRead (Close threeBuffered) (MutableBuffer.ofBlock [0, 0]) 2).waiting_read_buffer_.mem =
      [97, 98] ∧
    (StartRead (Close threeBuffered)
      (MutableBuffer.ofBlock [0, 0]) 2).waiting_read_bytes_transferred_ =
        min threeBuffered.read_buffer_.length (buffer_size (MutableBuffer.ofBlock [0, 0])) ∧
    (StartRead (Close threeBuffered) (MutableBuffer.ofBlock [0, 0]) 2).read_buffer_ = [99] :=
  ⟨rfl, rfl, rfl, rfl,
    (read_after_close_takes_buffered_bytes sampleEnv threeBuffered
      (MutableBuffer.ofBlock [0, 0]) 2 (by decide) (by decide) (by decide) rfl).2.2.2.2.1,
    rfl⟩

/-! ## C19: the framing of the legacy UDT transport -/

/-- C19. The code at messages the statement covers, with the whole of what
`SendDataSize` and `SendDataContent` wrote available to the receiver.  For
the five-byte message `hello` the queue is `5hello`; `ReceiveDataSize` takes
`sizeof(DataSize)` bytes of it in its one `recv` (`5h`, `5hel` or `5hello`
for a 16-, 32- or 64-bit `DataSize`), the conversion to a number fails, and
the function returns 0 where the statement says 5.  For a message of one
hundred bytes and a 16-bit `DataSize` the `recv` takes `10` of `100`: the
size returned is 10 and the content read is `0` followed by nine bytes of the
message.  Only when the decimal text is exactly `sizeof(DataSize)` characters
long (twelve bytes, 16-bit) does the message come back. -/
theorem size_text_read_with_fixed_width :
    sentStream DataSizeType.int32 helloMessage = [53, 104, 101, 108, 108, 111] ∧
    (TransportUDT.ReceiveDataSize DataSizeType.int32
      (sentStream DataSizeType.int32 helloMessage)) =
        ⟨0, some TransportCondition.kReceiveParseFailure, [108, 111]⟩ ∧
    (TransportUDT.ReceiveDataSize DataSizeType.int16
      (sentStream DataSizeType.int16 helloMessage)).data_size = 0 ∧
    (TransportUDT.ReceiveDataSize DataSizeType.int64
      (sentStream DataSizeType.int64 helloMessage)).data_size = 0 ∧
    (TransportUDT.ReceiveDataSize DataSizeType.int32
      (sentStream DataSizeType.int32 helloMessage)).data_size ≠ (helloMessage.length : Int) ∧
    (TransportUDT.SendDataSize DataSizeType.int16 hundredBytes []).1 =
      TransportCondition.kSuccess ∧
    (TransportUDT.ReceiveDataSize DataSizeType.int16
      (sentStream DataSizeType.int16 hundredBytes)).data_size = 10 ∧
    (TransportUDT.ReceiveDataContent
      (TransportUDT.ReceiveDataSize DataSizeType.int16
        (sentStream DataSizeType.int16 hundredBytes)).queue 10).1 =
        [48, 120, 120, 120, 120, 120, 120, 120, 120, 120] ∧
    (TransportUDT.ReceiveDataSize DataSizeType.int16
      (sentStream DataSizeType.int16 twelveBytes)).data_size = 12 ∧
    (TransportUDT.ReceiveDataContent
      (TransportUDT.ReceiveDataSize DataSizeType.int16
        (sentStream DataSizeType.int16 twelveBytes)).queue 12).1 = twelveBytes := by
  decide

end maidsafe.transport
